import Mathlib

/-!
# CustomizedFOV: the OpenXR API layer `OpenXrLayer`

A shallow embedding of `openxr-api-layer/layer.cpp` and of the settings helpers of
`openxr-api-layer/utils/general.cpp`.

* `float` is IEEE-754 binary32 with round-to-nearest-even (`F32`): a finite value is
  a sign and a natural multiple of `2^-149`, the smallest subnormal.
* What C++ leaves to the platform comes in through `Platform`: the `tan` of the C
  library and the value produced by an out-of-range float-to-integer conversion.
* A call forwarded to `OpenXrApi::...` is recorded in `World.forwarded`; what the next
  layer or runtime answered is an argument of the embedded method.
* A method ends with a `Fault` instead of a value when it indexes an array past its end
  or when `CHECK_XRCMD` throws.
* The registry key of the settings is part of `World`, together with the list of the
  writes made to it.
-/

set_option linter.unusedVariables false
set_option maxRecDepth 100000

namespace CustomizedFOV

/-! ## IEEE-754 binary32 -/

/-- A binary32 value. `fin neg k` is the finite value `(-1)^neg * k * 2^-149`. -/
inductive F32 where
  | nan : F32
  | inf (neg : Bool) : F32
  | fin (neg : Bool) (k : Nat) : F32
  deriving DecidableEq, Repr

namespace F32

/-- The exponent of the unit `2^-149` in which finite values are counted. -/
def unitExp : Nat := 149

/-- The number of significand bits of binary32. -/
def precision : Nat := 24

/-- The first magnitude (in units of `2^-149`) that no longer is finite: `2^128`. -/
def overflowBound : Nat := 2 ^ 128 * 2 ^ 149

/-- Count the binary digits of `q` by halving, at most `fuel` times. -/
def bitLengthAux : Nat → Nat → Nat
  | 0, _ => 0
  | fuel + 1, q => if q = 0 then 0 else bitLengthAux fuel (q / 2) + 1

/-- The number of binary digits of `q` (halving `q` times always reaches zero). -/
def bitLength (q : Nat) : Nat := bitLengthAux q q

/-- Round the non-negative rational `n / d` (counted in units of `2^-149`) to the
nearest binary32 magnitude, ties to even; a magnitude of `2^128` or more is infinite. -/
def roundMag (neg : Bool) (n d : Nat) : F32 :=
  let q := n / d
  let u := 2 ^ (bitLength q - precision)
  let du := d * u
  let f := n / du
  let r := n % du
  let c := if 2 * r < du then f else if 2 * r = du then f + f % 2 else f + 1
  if overflowBound ≤ c * u then inf neg else fin neg (c * u)

/-- The magnitude the rounding of `n / d` chooses, before the overflow test. -/
def roundedMag (n d : Nat) : Nat :=
  let u := 2 ^ (bitLength (n / d) - precision)
  let f := n / (d * u)
  let r := n % (d * u)
  (if 2 * r < d * u then f else if 2 * r = d * u then f + f % 2 else f + 1) * u

/-- Whether the value is a NaN. -/
def isNaN : F32 → Bool
  | nan => true
  | _ => false

/-- Whether the value is `+0.0f` or `-0.0f`. -/
def isZero : F32 → Bool
  | fin _ 0 => true
  | _ => false

/-- Float multiplication. -/
def mul : F32 → F32 → F32
  | nan, _ => nan
  | _, nan => nan
  | inf s, inf t => inf (xor s t)
  | inf s, fin t k => if k = 0 then nan else inf (xor s t)
  | fin s k, inf t => if k = 0 then nan else inf (xor s t)
  | fin s k, fin t l => roundMag (xor s t) (k * l) (2 ^ unitExp)

/-- Float division. -/
def div : F32 → F32 → F32
  | nan, _ => nan
  | _, nan => nan
  | inf _, inf _ => nan
  | inf s, fin t _ => inf (xor s t)
  | fin s _, inf t => fin (xor s t) 0
  | fin s k, fin t l =>
      if l = 0 then (if k = 0 then nan else inf (xor s t))
      else roundMag (xor s t) (k * 2 ^ unitExp) l

/-- Float addition. -/
def add : F32 → F32 → F32
  | nan, _ => nan
  | _, nan => nan
  | inf s, inf t => if s = t then inf s else nan
  | inf s, fin _ _ => inf s
  | fin _ _, inf t => inf t
  | fin s k, fin t l =>
      if s = t then roundMag s (k + l) 1
      else if k = l then fin false 0
      else if l < k then roundMag s (k - l) 1
      else roundMag t (l - k) 1

/-- The absolute value of a float (`fabsf`). -/
def abs : F32 → F32
  | nan => nan
  | inf _ => inf false
  | fin _ k => fin false k

/-- Conversion of a signed integer to float. -/
def ofInt (i : Int) : F32 :=
  roundMag (decide (i < 0)) (i.natAbs * 2 ^ unitExp) 1

/-- Conversion of an unsigned integer to float. -/
def ofNat (n : Nat) : F32 := roundMag false (n * 2 ^ unitExp) 1

/-- The float nearest to the decimal literal `n / d`. -/
def ofDecimal (n d : Nat) : F32 := roundMag false (n * 2 ^ unitExp) d

/-- The integer part (truncation toward zero) of a finite float. -/
def trunc? : F32 → Option Int
  | fin s k => some (if s then -((k / 2 ^ unitExp : Nat) : Int) else ((k / 2 ^ unitExp : Nat) : Int))
  | _ => none

/-- A value is a binary32 number when it is NaN, infinite, or a finite magnitude below
`2^128` whose significand fits 24 bits. -/
def WellFormed : F32 → Prop
  | fin _ k => k < overflowBound ∧ k % 2 ^ (bitLength k - precision) = 0
  | _ => True

instance : DecidablePred WellFormed := fun x =>
  match x with
  | nan => isTrue trivial
  | inf _ => isTrue trivial
  | fin _ k =>
    inferInstanceAs (Decidable (k < overflowBound ∧ k % 2 ^ (bitLength k - precision) = 0))

/-- The float `1.0f`. -/
def one : F32 := fin false (2 ^ unitExp)

/-- Whether the value is a finite number. -/
def isFinite : F32 → Bool
  | fin _ _ => true
  | _ => false

/-- The rational value of a finite float (and `0` for NaN and the infinities). -/
def toRat : F32 → ℚ
  | fin s k => (if s then -(k : ℚ) else (k : ℚ)) / 2 ^ unitExp
  | _ => 0

/-- Whether the value is a finite number other than zero. -/
def finiteNonzero : F32 → Bool
  | fin _ k => k != 0
  | _ => false

end F32

/-! ## What the platform decides -/

/-- The parts of the behaviour that C++ leaves to the compiler and the C library. -/
structure Platform where
  /-- The `float` overload of `tan` from `<cmath>`. -/
  tan : F32 → F32
  /-- The `int` a conversion yields for a float that is NaN or outside the range of `int`. -/
  cvtInt : F32 → Int
  /-- The `uint32_t` a conversion yields for a float that is NaN or outside its range. -/
  cvtUInt : F32 → Nat

/-- Conversion `float → int`: truncation toward zero when the integer part fits. -/
def Platform.toInt (P : Platform) (x : F32) : Int :=
  match x.trunc? with
  | some i => if -(2 ^ 31) ≤ i ∧ i < 2 ^ 31 then i else P.cvtInt x
  | none => P.cvtInt x

/-- Conversion `float → uint32_t`: truncation toward zero when the integer part fits. -/
def Platform.toUInt32 (P : Platform) (x : F32) : Nat :=
  match x.trunc? with
  | some i => if 0 ≤ i ∧ i < 2 ^ 32 then i.toNat else P.cvtUInt x % 2 ^ 32
  | none => P.cvtUInt x % 2 ^ 32

/-! ## OpenXR types and constants (`openxr.h`) -/

abbrev XrResult := Int

def XR_SUCCESS : XrResult := 0
def XR_ERROR_VALIDATION_FAILURE : XrResult := -1
def XR_ERROR_RUNTIME_FAILURE : XrResult := -2
def XR_ERROR_SIZE_INSUFFICIENT : XrResult := -11

/-- The macro `XR_SUCCEEDED(result)`: `(result) >= 0`. -/
def XR_SUCCEEDED (result : XrResult) : Bool := decide (0 ≤ result)

/-- The macro `XR_FAILED(result)`: `(result) < 0`. -/
def XR_FAILED (result : XrResult) : Bool := decide (result < 0)

def XR_TYPE_INSTANCE_CREATE_INFO : Nat := 3
def XR_TYPE_SYSTEM_GET_INFO : Nat := 4
def XR_TYPE_SESSION_CREATE_INFO : Nat := 8
def XR_VIEW_CONFIGURATION_TYPE_PRIMARY_STEREO : Nat := 2
def XR_FORM_FACTOR_HEAD_MOUNTED_DISPLAY : Nat := 1
def XR_NULL_SYSTEM_ID : Nat := 0

structure XrFovf where
  angleLeft : F32
  angleRight : F32
  angleUp : F32
  angleDown : F32
  deriving DecidableEq, Repr

structure XrQuaternionf where
  x : F32
  y : F32
  z : F32
  w : F32
  deriving DecidableEq, Repr

structure XrVector3f where
  x : F32
  y : F32
  z : F32
  deriving DecidableEq, Repr

structure XrPosef where
  orientation : XrQuaternionf
  position : XrVector3f
  deriving DecidableEq, Repr

structure XrView where
  type : Nat
  pose : XrPosef
  fov : XrFovf
  deriving DecidableEq, Repr

structure XrViewState where
  type : Nat
  viewStateFlags : Nat
  deriving DecidableEq, Repr

structure XrViewConfigurationView where
  type : Nat
  recommendedImageRectWidth : Nat
  maxImageRectWidth : Nat
  recommendedImageRectHeight : Nat
  maxImageRectHeight : Nat
  recommendedSwapchainSampleCount : Nat
  maxSwapchainSampleCount : Nat
  deriving DecidableEq, Repr

/-- The constant `DirectX::XM_PI = 3.141592654f`, the float `0x40490FDB`. -/
def XM_PI : F32 := F32.fin false (13176795 * 2 ^ 127)

/-! ## The world around the layer -/

/-- The entry points of `OpenXrApi` the layer forwards to. -/
inductive ApiCall where
  | xrCreateInstance
  | xrGetInstanceProperties
  | xrGetSystem
  | xrGetSystemProperties
  | xrCreateSession
  | xrEnumerateViewConfigurationViews
  | xrLocateViews
  deriving DecidableEq, Repr

/-- The registry key `HKEY_CURRENT_USER\SOFTWARE\CustomizedFOV` and the calls that left
the layer. Diagnostic output (`Log`, `TraceLoggingWrite`) is not modelled. -/
structure World where
  /-- The `REG_DWORD` values under the key; the first entry of a name is the current one. -/
  registry : List (String × Nat)
  /-- Whether `RegSetKeyValue` succeeds. -/
  regWritable : Bool
  /-- The `RegSetKeyValue` calls made so far, oldest first. -/
  regWrites : List (String × Nat)
  /-- The calls forwarded to `OpenXrApi`, oldest first. -/
  forwarded : List ApiCall
  deriving DecidableEq, Repr

/-- An `int` stored into a `DWORD`. -/
def toDword (i : Int) : Nat := (i % 2 ^ 32).toNat

/-- A `DWORD` read back as `int`. -/
def ofDword (d : Nat) : Int := if d % 2 ^ 32 < 2 ^ 31 then (d % 2 ^ 32 : Nat) else (d % 2 ^ 32 : Nat) - 2 ^ 32

/-- The function `RegGetDword`: the value, or nothing when `RegGetValue` fails. -/
def RegGetDword (w : World) (value : String) : Option Int :=
  match w.registry.lookup value with
  | some data => some (ofDword data)
  | none => none

/-- The function `RegSetDword`: a failure of `RegSetKeyValue` is logged and ignored. -/
def RegSetDword (w : World) (value : String) (dwordValue : Nat) : World :=
  { w with
    registry := if w.regWritable then (value, dwordValue) :: w.registry else w.registry
    regWrites := w.regWrites ++ [(value, dwordValue)] }

/-- The function `utils::general::getSetting`. -/
def getSetting (w : World) (value : String) : Option Int := RegGetDword w value

/-- The function `utils::general::setSetting`. -/
def setSetting (w : World) (value : String) (dwordValue : Int) : World :=
  RegSetDword w value (toDword dwordValue)

/-- Record a call forwarded to `OpenXrApi`. -/
def World.forward (w : World) (c : ApiCall) : World :=
  { w with forwarded := w.forwarded ++ [c] }

/-! ## The class `OpenXrLayer` -/

/-- The data members of `OpenXrLayer`. -/
structure OpenXrLayer where
  /-- The array `XrFovf m_cachedEyeFov[2]`. -/
  m_cachedEyeFov : XrFovf × XrFovf
  fovUp : F32
  fovDown : F32
  anglesWrittenToReg : Bool
  m_bypassApiLayer : Bool
  m_systemId : Nat
  deriving DecidableEq, Repr

/-- How a method ends without a value: an access past the end of an array, or the
exception `CHECK_XRCMD` throws for a failed result. -/
inductive Fault where
  | outOfBounds
  | xrCheckFailed (result : XrResult)
  deriving DecidableEq, Repr

/-- A method's output together with the layer and the world it leaves behind. -/
structure Ret (α : Type) where
  out : α
  layer : OpenXrLayer
  world : World

/-- The macro `CHECK_XRCMD` of the OpenXR utility headers: a failed result is thrown. -/
def CHECK_XRCMD (result : XrResult) : Except Fault Unit :=
  if XR_FAILED result then .error (.xrCheckFailed result) else .ok ()

/-- An `XrFovf` with every angle `0.0f`. -/
def zeroFov : XrFovf := ⟨.fin false 0, .fin false 0, .fin false 0, .fin false 0⟩

/-- The layer as `GetInstance` makes it: `std::make_unique<OpenXrLayer>()` zeroes the
members without an initialiser. -/
def OpenXrLayer.new : OpenXrLayer :=
  { m_cachedEyeFov := (zeroFov, zeroFov)
    fovUp := .fin false 0
    fovDown := .fin false 0
    anglesWrittenToReg := false
    m_bypassApiLayer := false
    m_systemId := XR_NULL_SYSTEM_ID }

/-- The member `const float defaultFovAngle = 45000`. -/
def defaultFovAngle : F32 := F32.ofNat 45000

/-- The call `value_or(defaultFovAngle)` on a `std::optional<int>`: the float default
is converted to `int`. -/
def valueOrDefaultFovAngle (setting : Option Int) : Int :=
  match setting with
  | some v => v
  | none => (F32.trunc? defaultFovAngle).getD 0

/-- The element `m_cachedEyeFov[i]`, when `i` is inside the array. -/
def OpenXrLayer.cachedEyeFov? (s : OpenXrLayer) (i : Nat) : Option XrFovf :=
  match i with
  | 0 => some s.m_cachedEyeFov.1
  | 1 => some s.m_cachedEyeFov.2
  | _ => none

/-- The method `getFovAnglesSettings`. -/
def getFovAnglesSettings (s : OpenXrLayer) (w : World) : OpenXrLayer :=
  let up := F32.div (F32.mul XM_PI (F32.ofInt (valueOrDefaultFovAngle (getSetting w "angle_up"))))
    (F32.ofNat 180000)
  let down := F32.div (F32.mul XM_PI (F32.ofInt (valueOrDefaultFovAngle (getSetting w "angle_down"))))
    (F32.ofNat 180000)
  { s with
    m_cachedEyeFov :=
      ({ s.m_cachedEyeFov.1 with angleUp := up, angleDown := down },
       { s.m_cachedEyeFov.2 with angleUp := up, angleDown := down }) }

/-! ### xrEnumerateViewConfigurationViews -/

/-- What a forwarded `xrEnumerateViewConfigurationViews` leaves behind: its result,
`*viewCountOutput` and the caller's array `views`. -/
structure EnumerateOut where
  result : XrResult
  viewCountOutput : Nat
  views : List XrViewConfigurationView
  deriving DecidableEq, Repr

/-- The right-hand side assigned to `views[i].recommendedImageRectHeight`: the unsigned
quotient `height / 2` is converted to float for each product and the float sum is
converted back to `uint32_t`. -/
def rectHeight (P : Platform) (s : OpenXrLayer) (fov : XrFovf) (height : Nat) : Nat :=
  P.toUInt32
    (F32.add
      (F32.mul (F32.ofNat (height / 2))
        (F32.div (P.tan (F32.mul fov.angleUp s.fovUp)) (P.tan fov.angleUp)))
      (F32.mul (F32.ofNat (height / 2))
        (F32.div (P.tan (F32.mul fov.angleDown s.fovDown)) (P.tan fov.angleDown))))

/-- The loop `for (i = ...; i < *viewCountOutput; i++)` of
`xrEnumerateViewConfigurationViews` with `n` iterations left. -/
def enumerateLoop (P : Platform) (s : OpenXrLayer) :
    Nat → Nat → List XrViewConfigurationView → Except Fault (List XrViewConfigurationView)
  | 0, _, views => .ok views
  | n + 1, i, views =>
    match views[i]?, s.cachedEyeFov? i with
    | some v, some fov =>
      enumerateLoop P s n (i + 1)
        (views.set i
          { v with recommendedImageRectHeight := rectHeight P s fov v.recommendedImageRectHeight })
    | _, _ => .error .outOfBounds

/-- The method `OpenXrLayer::xrEnumerateViewConfigurationViews`; `fwd` is what the
forwarded call left behind. -/
def xrEnumerateViewConfigurationViews (P : Platform) (s : OpenXrLayer) (w : World)
    (viewConfigurationType viewCapacityInput : Nat) (fwd : EnumerateOut) :
    Except Fault (Ret EnumerateOut) :=
  let w1 := w.forward .xrEnumerateViewConfigurationViews
  if XR_SUCCEEDED fwd.result && viewCapacityInput != 0 then
    if viewConfigurationType == XR_VIEW_CONFIGURATION_TYPE_PRIMARY_STEREO then
      match enumerateLoop P s fwd.viewCountOutput 0 fwd.views with
      | .ok views => .ok ⟨{ fwd with views := views }, s, w1⟩
      | .error e => .error e
    else .ok ⟨fwd, s, w1⟩
  else .ok ⟨fwd, s, w1⟩

/-! ### xrLocateViews -/

/-- What a forwarded `xrLocateViews` leaves behind. -/
structure LocateOut where
  result : XrResult
  viewState : XrViewState
  viewCountOutput : Nat
  views : List XrView
  deriving DecidableEq, Repr

/-- The expression `abs(angle * 180000.0f / DirectX::XM_PI)` converted to `int`. -/
def systemAngle (P : Platform) (angle : F32) : Int :=
  P.toInt (F32.abs (F32.div (F32.mul angle (F32.ofNat 180000)) XM_PI))

/-- The body of `if (!anglesWrittenToReg)` for the view `v`. -/
def captureAngles (P : Platform) (s : OpenXrLayer) (w : World) (v : XrView) :
    OpenXrLayer × World :=
  let systemAngleUp := systemAngle P v.fov.angleUp
  let systemAngleDown := systemAngle P v.fov.angleDown
  let w1 := setSetting w "angle_up" systemAngleUp
  let w2 := setSetting w1 "angle_down" systemAngleDown
  ({ getFovAnglesSettings s w2 with anglesWrittenToReg := true }, w2)

/-- The two assignments to `views[i].fov.angleUp` and `views[i].fov.angleDown`. -/
def scaleView (s : OpenXrLayer) (v : XrView) : XrView :=
  { v with
    fov := { v.fov with
      angleUp := F32.mul v.fov.angleUp s.fovUp
      angleDown := F32.mul v.fov.angleDown s.fovDown } }

/-- The loop `for (i = ...; i < *viewCountOutput; i++)` of `xrLocateViews` with `n`
iterations left. -/
def locateLoop (P : Platform) :
    Nat → Nat → OpenXrLayer → World → List XrView → Except Fault (OpenXrLayer × World × List XrView)
  | 0, _, s, w, views => .ok (s, w, views)
  | n + 1, i, s, w, views =>
    match views[i]? with
    | some v =>
      let sw := if !s.anglesWrittenToReg then captureAngles P s w v else (s, w)
      locateLoop P n (i + 1) sw.1 sw.2 (views.set i (scaleView sw.1 v))
    | none => .error .outOfBounds

/-- The method `OpenXrLayer::xrLocateViews`; `fwd` is what the forwarded call left
behind. -/
def xrLocateViews (P : Platform) (s : OpenXrLayer) (w : World)
    (viewConfigurationType viewCapacityInput : Nat) (fwd : LocateOut) :
    Except Fault (Ret LocateOut) :=
  let w1 := w.forward .xrLocateViews
  if XR_SUCCEEDED fwd.result && viewCapacityInput != 0 &&
      viewConfigurationType == XR_VIEW_CONFIGURATION_TYPE_PRIMARY_STEREO then
    match locateLoop P fwd.viewCountOutput 0 s w1 fwd.views with
    | .ok (s2, w2, views) => .ok ⟨{ fwd with views := views }, s2, w2⟩
    | .error e => .error e
  else .ok ⟨fwd, s, w1⟩

/-! ### xrCreateInstance, xrGetSystem, xrCreateSession -/

/-- The scale `getSetting(name).value_or(1000) / 1e3f`. -/
def fovScale (setting : Option Int) : F32 :=
  F32.div (F32.ofInt (setting.getD 1000)) (F32.ofNat 1000)

/-- The method `OpenXrLayer::xrCreateInstance`. `fwdResult` is what
`OpenXrApi::xrCreateInstance` returned and `propertiesResult` what
`OpenXrApi::xrGetInstanceProperties` returns. -/
def xrCreateInstance (s : OpenXrLayer) (w : World) (createInfoType : Nat)
    (fwdResult propertiesResult : XrResult) : Except Fault (Ret XrResult) :=
  if createInfoType != XR_TYPE_INSTANCE_CREATE_INFO then
    .ok ⟨XR_ERROR_VALIDATION_FAILURE, s, w⟩
  else
    -- `OpenXrApi::xrCreateInstance(createInfo);` the value `fwdResult` is dropped
    let w1 := w.forward .xrCreateInstance
    if s.m_bypassApiLayer then .ok ⟨XR_SUCCESS, s, w1⟩
    else
      let w2 := w1.forward .xrGetInstanceProperties
      match CHECK_XRCMD propertiesResult with
      | .error e => .error e
      | .ok () =>
        let s1 := getFovAnglesSettings s w2
        let s2 := { s1 with fovUp := fovScale (getSetting w2 "fov_up") }
        let s3 := { s2 with fovDown := fovScale (getSetting w2 "fov_down") }
        .ok ⟨XR_SUCCESS, s3, w2⟩

/-- What a forwarded `xrGetSystem` leaves behind. -/
structure GetSystemOut where
  result : XrResult
  systemId : Nat
  deriving DecidableEq, Repr

/-- The method `OpenXrLayer::xrGetSystem`. `fwd` is what `OpenXrApi::xrGetSystem` left
behind and `propertiesResult` what `OpenXrApi::xrGetSystemProperties` returns. The
method only reads `*systemId`, so its output is the result code. -/
def xrGetSystem (s : OpenXrLayer) (w : World) (getInfoType formFactor : Nat)
    (fwd : GetSystemOut) (propertiesResult : XrResult) : Except Fault (Ret XrResult) :=
  if getInfoType != XR_TYPE_SYSTEM_GET_INFO then
    .ok ⟨XR_ERROR_VALIDATION_FAILURE, s, w⟩
  else
    let w1 := w.forward .xrGetSystem
    if XR_SUCCEEDED fwd.result && formFactor == XR_FORM_FACTOR_HEAD_MOUNTED_DISPLAY then
      if fwd.systemId != s.m_systemId then
        let w2 := w1.forward .xrGetSystemProperties
        match CHECK_XRCMD propertiesResult with
        | .error e => .error e
        | .ok () => .ok ⟨fwd.result, { s with m_systemId := fwd.systemId }, w2⟩
      else .ok ⟨fwd.result, { s with m_systemId := fwd.systemId }, w1⟩
    else .ok ⟨fwd.result, s, w1⟩

/-- The method `OpenXrLayer::isSystemHandled`. -/
def isSystemHandled (s : OpenXrLayer) (systemId : Nat) : Bool := systemId == s.m_systemId

/-- The method `OpenXrLayer::xrCreateSession`; `fwdResult` is what
`OpenXrApi::xrCreateSession` returned. -/
def xrCreateSession (s : OpenXrLayer) (w : World) (createInfoType systemId : Nat)
    (fwdResult : XrResult) : Except Fault (Ret XrResult) :=
  if createInfoType != XR_TYPE_SESSION_CREATE_INFO then
    .ok ⟨XR_ERROR_VALIDATION_FAILURE, s, w⟩
  else
    let w1 := w.forward .xrCreateSession
    if XR_SUCCEEDED fwdResult then
      if isSystemHandled s systemId then .ok ⟨fwdResult, s, w1⟩ else .ok ⟨fwdResult, s, w1⟩
    else .ok ⟨fwdResult, s, w1⟩

/-- The layer and the world the loop of `xrLocateViews` ends with when it starts at view
`0`: the capture happens for view `0` exactly when the latch is not set. -/
def afterLocate (P : Platform) (s : OpenXrLayer) (w : World) (views : List XrView)
    (count : Nat) : OpenXrLayer × World :=
  match s.anglesWrittenToReg, count, views with
  | false, _ + 1, v :: _ => captureAngles P s w v
  | _, _, _ => (s, w)

/-! ## Concrete inputs -/

/-- The float nearest to `π / 4`, which is `XM_PI / 4`. -/
def piOver4 : F32 := F32.fin false (13176795 * 2 ^ 125)

/-- A platform to run the embedding on concrete inputs: out-of-range conversions
yield what `cvttss2si` yields on x86-64, and the tangent is tabulated at the
arguments the examples use (`tan (±0) = ±0`, `tan (π/4) = 1.0f`) and NaN elsewhere. -/
def samplePlatform : Platform :=
  { tan := fun x =>
      if x.isZero then x
      else if x = piOver4 then F32.one
      else F32.nan
    cvtInt := fun _ => -(2 ^ 31)
    cvtUInt := fun _ => 0 }

/-- A world with an empty, writable registry key and no call made yet. -/
def sampleWorld : World :=
  { registry := [], regWritable := true, regWrites := [], forwarded := [] }

/-- A world whose registry key holds all four settings: `angle_up = 22500`,
`angle_down = 20001`, `fov_up = 1200`, `fov_down = 800`. -/
def configuredWorld : World :=
  { registry := [("angle_up", 22500), ("angle_down", 20001), ("fov_up", 1200), ("fov_down", 800)]
    regWritable := true, regWrites := [], forwarded := [] }

/-- A layer with the baseline `π / 4` for both eyes and the given scales. -/
def sampleLayer (fovUp fovDown : F32) (latch : Bool) : OpenXrLayer :=
  { m_cachedEyeFov :=
      (⟨.fin false 0, .fin false 0, piOver4, piOver4⟩, ⟨.fin false 0, .fin false 0, piOver4, piOver4⟩)
    fovUp := fovUp
    fovDown := fovDown
    anglesWrittenToReg := latch
    m_bypassApiLayer := false
    m_systemId := XR_NULL_SYSTEM_ID }

/-- A located view with the given vertical angles, the identity pose and horizontal
angles of `∓ π/4`. -/
def sampleView (angleUp angleDown : F32) : XrView :=
  { type := 7
    pose := ⟨⟨.fin false 0, .fin false 0, .fin false 0, F32.one⟩, ⟨.fin false 0, .fin false 0, .fin false 0⟩⟩
    fov := ⟨.fin true (13176795 * 2 ^ 125), piOver4, angleUp, angleDown⟩ }

/-- A view configuration view of width 1000 with the given recommended height. -/
def sampleConfigView (height : Nat) : XrViewConfigurationView :=
  { type := 41
    recommendedImageRectWidth := 1000
    maxImageRectWidth := 8192
    recommendedImageRectHeight := height
    maxImageRectHeight := 8192
    recommendedSwapchainSampleCount := 1
    maxSwapchainSampleCount := 1 }

/-- A successful `xrLocateViews` of the runtime that reports two views with the given
vertical angles. -/
def sampleLocate (angleUp angleDown : F32) : LocateOut :=
  { result := XR_SUCCESS
    viewState := ⟨11, 15⟩
    viewCountOutput := 2
    views := [sampleView angleUp angleDown, sampleView angleUp angleDown] }

/-- A successful `xrEnumerateViewConfigurationViews` of the runtime that reports two
views with the given recommended heights. -/
def sampleEnumerate (height0 height1 : Nat) : EnumerateOut :=
  { result := XR_SUCCESS
    viewCountOutput := 2
    views := [sampleConfigView height0, sampleConfigView height1] }

/-- A layer that has not loaded its baseline (the cache is still zero) and scales with
`1.0f`. -/
def zeroBaselineLayer : OpenXrLayer :=
  { OpenXrLayer.new with fovUp := F32.one, fovDown := F32.one }

/-! ## Sequences of intercepted calls -/

/-- A call of one of the five intercepted entry points: the arguments the layer looks at
and what the forwarded calls answer. -/
inductive Call where
  | createInstance (createInfoType : Nat) (fwdResult propertiesResult : XrResult)
  | getSystem (getInfoType formFactor : Nat) (fwd : GetSystemOut) (propertiesResult : XrResult)
  | createSession (createInfoType systemId : Nat) (fwdResult : XrResult)
  | enumerateViewConfigurationViews (viewConfigurationType viewCapacityInput : Nat)
      (fwd : EnumerateOut)
  | locateViews (viewConfigurationType viewCapacityInput : Nat) (fwd : LocateOut)
  deriving DecidableEq, Repr

/-- The layer and the world a call leaves for the next call. An exception of `CHECK_XRCMD`
leaves the layer as it was (both throw sites come before every assignment to a member);
after an access past the end of an array nothing is known. -/
def afterCall {α : Type} (s : OpenXrLayer) (w : World) :
    Except Fault (Ret α) → Option (OpenXrLayer × World)
  | .ok r => some (r.layer, r.world)
  | .error (.xrCheckFailed _) => some (s, w)
  | .error .outOfBounds => none

/-- Both eyes have the same cached `angleUp` and the same cached `angleDown`. -/
def OpenXrLayer.symmetricBaseline (s : OpenXrLayer) : Prop :=
  s.m_cachedEyeFov.1.angleUp = s.m_cachedEyeFov.2.angleUp ∧
  s.m_cachedEyeFov.1.angleDown = s.m_cachedEyeFov.2.angleDown

/-- One intercepted call on the layer `s` in the world `w`. -/
def step (P : Platform) (s : OpenXrLayer) (w : World) : Call → Option (OpenXrLayer × World)
  | .createInstance createInfoType fwdResult propertiesResult =>
    afterCall s w (xrCreateInstance s w createInfoType fwdResult propertiesResult)
  | .getSystem getInfoType formFactor fwd propertiesResult =>
    afterCall s w (xrGetSystem s w getInfoType formFactor fwd propertiesResult)
  | .createSession createInfoType systemId fwdResult =>
    afterCall s w (xrCreateSession s w createInfoType systemId fwdResult)
  | .enumerateViewConfigurationViews viewConfigurationType viewCapacityInput fwd =>
    afterCall s w
      (xrEnumerateViewConfigurationViews P s w viewConfigurationType viewCapacityInput fwd)
  | .locateViews viewConfigurationType viewCapacityInput fwd =>
    afterCall s w (xrLocateViews P s w viewConfigurationType viewCapacityInput fwd)

/-- The layers reachable from construction by intercepted calls; the world each call
finds is arbitrary (the registry may change between calls). -/
inductive Reachable (P : Platform) : OpenXrLayer → Prop where
  | construction : Reachable P OpenXrLayer.new
  | call (s : OpenXrLayer) (w : World) (c : Call) (s2 : OpenXrLayer) (w2 : World) :
      Reachable P s → step P s w c = some (s2, w2) → Reachable P s2
/-! ## Exact cases of the float arithmetic -/

namespace F32

theorem bitLengthAux_le (fuel : Nat) : ∀ (q m : Nat), q < 2 ^ m → bitLengthAux fuel q ≤ m := by
  induction fuel with
  | zero => intro q m _; simp [bitLengthAux]
  | succ fuel ih =>
    intro q m hq
    unfold bitLengthAux
    split
    · omega
    · rename_i hq0
      cases m with
      | zero => simp at hq; omega
      | succ m =>
        have : q / 2 < 2 ^ m := by
          rw [Nat.div_lt_iff_lt_mul (by norm_num)]
          rw [pow_succ] at hq
          exact hq
        have := ih (q / 2) m this
        omega

theorem bitLength_le (q m : Nat) (h : q < 2 ^ m) : bitLength q ≤ m :=
  bitLengthAux_le q q m h

/-- A significand of at most 24 bits, shifted left, keeps the form of a binary32. -/
theorem wf_shift (m j : Nat) (h : m < 2 ^ precision) :
    (m * 2 ^ j) % 2 ^ (bitLength (m * 2 ^ j) - precision) = 0 := by
  have hlt : m * 2 ^ j < 2 ^ (precision + j) := by
    rw [pow_add]
    exact Nat.mul_lt_mul_of_lt_of_le h (le_refl _) (by positivity)
  have hle := bitLength_le _ _ hlt
  have hdvd : 2 ^ (bitLength (m * 2 ^ j) - precision) ∣ 2 ^ j :=
    pow_dvd_pow 2 (by omega)
  exact Nat.mod_eq_zero_of_dvd (Dvd.dvd.mul_left hdvd m)

/-- Rounding is exact on a quotient that already is a binary32 magnitude. -/
theorem roundMag_exact (neg : Bool) (k d : Nat) (hd : 0 < d)
    (hwf : k % 2 ^ (bitLength k - precision) = 0) (hlt : k < overflowBound) :
    roundMag neg (k * d) d = fin neg k := by
  obtain ⟨c, hc⟩ := Nat.dvd_of_mod_eq_zero hwf
  have hu : 0 < 2 ^ (bitLength k - precision) := by positivity
  have hq : k * d / d = k := Nat.mul_div_cancel k hd
  have hdu : 0 < d * 2 ^ (bitLength k - precision) := Nat.mul_pos hd hu
  have hn : k * d = c * (d * 2 ^ (bitLength k - precision)) := by
    conv_lhs => rw [hc]
    ring
  have hf : k * d / (d * 2 ^ (bitLength k - precision)) = c := by
    rw [hn]; exact Nat.mul_div_cancel c hdu
  have hr : k * d % (d * 2 ^ (bitLength k - precision)) = 0 := by
    rw [hn]; exact Nat.mul_mod_left c _
  have hk : c * 2 ^ (bitLength k - precision) = k := by
    conv_rhs => rw [hc]
    ring
  simp only [roundMag, hq, hf, hr, Nat.mul_zero, hdu, if_true, hk]
  rw [if_neg (by omega)]





theorem mul_one_of_wellFormed (x : F32) (h : x.WellFormed) : mul x one = x := by
  cases x with
  | nan => rfl
  | inf s => simp [mul, one]
  | fin s k =>
    obtain ⟨hlt, hwf⟩ := h
    simp only [mul, one, Bool.xor_false]
    exact roundMag_exact s k (2 ^ unitExp) (by positivity) hwf hlt

theorem one_wf : (2 ^ unitExp) % 2 ^ (bitLength (2 ^ unitExp) - precision) = 0 := by
  have := wf_shift 1 unitExp (by norm_num [precision])
  simpa using this

theorem div_self_of_finite (s : Bool) (k : Nat) (hk : k ≠ 0) :
    div (fin s k) (fin s k) = one := by
  simp only [div, hk, if_false, Bool.xor_self, one]
  rw [Nat.mul_comm]
  exact roundMag_exact false (2 ^ unitExp) k (Nat.pos_of_ne_zero hk) one_wf
    (by norm_num [overflowBound, unitExp])

theorem ofNat_exact (m : Nat) (h : m < 2 ^ precision) : ofNat m = fin false (m * 2 ^ unitExp) := by
  have := roundMag_exact false (m * 2 ^ unitExp) 1 (by norm_num) (wf_shift m unitExp h)
    (by
      have : m * 2 ^ unitExp < 2 ^ precision * 2 ^ unitExp :=
        Nat.mul_lt_mul_of_lt_of_le h (le_refl _) (by positivity)
      have h2 : 2 ^ precision * 2 ^ unitExp ≤ overflowBound := by
        norm_num [overflowBound, unitExp, precision]
      omega)
  simpa [ofNat] using this

theorem shifted_lt_overflow (m j : Nat) (h : m < 2 ^ precision) (hj : j ≤ 200) :
    m * 2 ^ j < overflowBound := by
  have h1 : m * 2 ^ j < 2 ^ precision * 2 ^ j :=
    Nat.mul_lt_mul_of_lt_of_le h (le_refl _) (by positivity)
  have h2 : 2 ^ precision * 2 ^ j ≤ 2 ^ precision * 2 ^ 200 :=
    Nat.mul_le_mul_left _ (Nat.pow_le_pow_right (by norm_num) hj)
  have h3 : 2 ^ precision * 2 ^ 200 ≤ overflowBound := by
    norm_num [overflowBound, precision]
  omega

theorem mul_one_shifted (m : Nat) (h : m < 2 ^ precision) :
    mul (fin false (m * 2 ^ unitExp)) one = fin false (m * 2 ^ unitExp) :=
  mul_one_of_wellFormed _ ⟨shifted_lt_overflow m unitExp h (by norm_num [unitExp]), wf_shift m unitExp h⟩

theorem add_self_shifted (m : Nat) (h : m < 2 ^ precision) :
    add (fin false (m * 2 ^ unitExp)) (fin false (m * 2 ^ unitExp)) =
      fin false (m * 2 ^ (unitExp + 1)) := by
  have e : m * 2 ^ unitExp + m * 2 ^ unitExp = m * 2 ^ (unitExp + 1) * 1 := by
    rw [pow_succ]; ring
  simp only [add, if_true, e]
  exact roundMag_exact false _ 1 (by norm_num) (wf_shift m _ h)
    (shifted_lt_overflow m _ h (by norm_num [unitExp]))

theorem trunc_shifted (m : Nat) : trunc? (fin false (m * 2 ^ (unitExp + 1))) = some ((2 * m : Nat) : Int) := by
  have : m * 2 ^ (unitExp + 1) / 2 ^ unitExp = 2 * m := by
    rw [pow_succ, ← Nat.mul_assoc, Nat.mul_comm (m * 2 ^ unitExp) 2, ← Nat.mul_assoc]
    exact Nat.mul_div_cancel _ (by positivity)
  simp [trunc?, this]

end F32

/-- With both scales `1.0f` and baseline angles whose tangent is finite and not zero, the
height assigned for a reported height below `2^25` is twice its half. -/
theorem rectHeight_neutral (P : Platform) (s : OpenXrLayer) (fov : XrFovf) (height : Nat)
    (hup : s.fovUp = F32.one) (hdown : s.fovDown = F32.one)
    (wup : fov.angleUp.WellFormed) (wdown : fov.angleDown.WellFormed)
    (tup : ∃ sg k, k ≠ 0 ∧ P.tan fov.angleUp = F32.fin sg k)
    (tdown : ∃ sg k, k ≠ 0 ∧ P.tan fov.angleDown = F32.fin sg k)
    (hh : height < 2 ^ 25) :
    rectHeight P s fov height = 2 * (height / 2) := by
  obtain ⟨s1, k1, hk1, e1⟩ := tup
  obtain ⟨s2, k2, hk2, e2⟩ := tdown
  have hm : height / 2 < 2 ^ F32.precision := by
    have : height / 2 < 2 ^ 24 := by omega
    simpa [F32.precision] using this
  have hr : 2 * (height / 2) < 2 ^ 32 := by omega
  unfold rectHeight
  rw [hup, hdown, F32.mul_one_of_wellFormed _ wup, F32.mul_one_of_wellFormed _ wdown, e1, e2,
    F32.div_self_of_finite s1 k1 hk1, F32.div_self_of_finite s2 k2 hk2, F32.ofNat_exact _ hm,
    F32.mul_one_shifted _ hm, F32.add_self_shifted _ hm]
  simp only [Platform.toUInt32, F32.trunc_shifted]
  rw [if_pos ⟨by positivity, by exact_mod_cast hr⟩]
  exact Int.toNat_ofNat _


/-! ## The rounding is to a nearest binary32 -/

namespace F32

theorem lt_two_pow_bitLengthAux (fuel : Nat) :
    ∀ q, q ≤ fuel → q < 2 ^ bitLengthAux fuel q := by
  induction fuel with
  | zero => intro q hq; simp [bitLengthAux]; omega
  | succ fuel ih =>
    intro q hq
    unfold bitLengthAux
    split
    · rename_i h0; subst h0; simp
    · rename_i h0
      have h := ih (q / 2) (by omega)
      rw [pow_succ]
      omega

theorem lt_two_pow_bitLength (q : Nat) : q < 2 ^ bitLength q :=
  lt_two_pow_bitLengthAux q q (le_refl q)

/-- The significand kept by the rounding has at most 24 bits. -/
theorem significand_lt (n d : Nat) :
    n / (d * 2 ^ (bitLength (n / d) - precision)) < 2 ^ precision := by
  rw [← Nat.div_div_eq_div_mul]
  have hq := lt_two_pow_bitLength (n / d)
  rw [Nat.div_lt_iff_lt_mul (by positivity)]
  by_cases hL : bitLength (n / d) ≤ precision
  · have : 2 ^ bitLength (n / d) ≤ 2 ^ precision := Nat.pow_le_pow_right (by norm_num) hL
    have h1 : 2 ^ precision ≤ 2 ^ precision * 2 ^ (bitLength (n / d) - precision) :=
      Nat.le_mul_of_pos_right _ (by positivity)
    omega
  · have : 2 ^ precision * 2 ^ (bitLength (n / d) - precision) = 2 ^ bitLength (n / d) := by
      rw [← pow_add]; congr 1; omega
    omega

theorem roundMag_eq (neg : Bool) (n d : Nat) :
    roundMag neg n d =
      if overflowBound ≤ roundedMag n d then inf neg else fin neg (roundedMag n d) := rfl

/-- The chosen magnitude is a significand of at most 24 bits times a power of two, or
`2^24` times that power. -/
theorem roundedMag_form (n d : Nat) :
    ∃ c, c ≤ 2 ^ precision ∧
      roundedMag n d = c * 2 ^ (bitLength (n / d) - precision) := by
  have hf := significand_lt n d
  refine ⟨_, ?_, rfl⟩
  split
  · omega
  · split
    · have : n / (d * 2 ^ (bitLength (n / d) - precision)) % 2 ≤ 1 := by omega
      omega
    · omega

/-- The chosen magnitude has the form of a binary32 magnitude. -/
theorem roundedMag_wf (n d : Nat) :
    roundedMag n d % 2 ^ (bitLength (roundedMag n d) - precision) = 0 := by
  obtain ⟨c, hc, e⟩ := roundedMag_form n d
  rw [e]
  rcases Nat.lt_or_eq_of_le hc with h | h
  · exact wf_shift c _ h
  · subst h
    have := wf_shift 1 (precision + (bitLength (n / d) - precision)) (by norm_num [precision])
    simpa [pow_add] using this

/-- Every result of the rounding is a binary32 value. -/
theorem roundMag_wellFormed (neg : Bool) (n d : Nat) : (roundMag neg n d).WellFormed := by
  rw [roundMag_eq]
  split
  · trivial
  · rename_i h
    exact ⟨by omega, roundedMag_wf n d⟩

/-- The chosen magnitude is within half a unit in the last place of `n / d`: with
`u = 2 ^ (bitLength (n / d) - 24)` the unit, `2 * |k * d - n| ≤ d * u`. -/
theorem roundedMag_nearest (n d : Nat) (hd : 0 < d) :
    2 * (roundedMag n d * d) ≤ 2 * n + d * 2 ^ (bitLength (n / d) - precision) ∧
    2 * n ≤ 2 * (roundedMag n d * d) + d * 2 ^ (bitLength (n / d) - precision) := by
  have hdu : 0 < d * 2 ^ (bitLength (n / d) - precision) := Nat.mul_pos hd (by positivity)
  have hn := Nat.div_add_mod n (d * 2 ^ (bitLength (n / d) - precision))
  have hr := Nat.mod_lt n hdu
  generalize hU : d * 2 ^ (bitLength (n / d) - precision) = U at hn hr hdu
  have key : ∀ c, c * 2 ^ (bitLength (n / d) - precision) * d = c * U := by
    intro c; rw [← hU]; ring
  unfold roundedMag
  simp only [hU, key]
  generalize n / U = f at hn
  generalize n % U = r at hn hr
  split
  · constructor <;> nlinarith
  · split
    · rcases Nat.mod_two_eq_zero_or_one f with h | h <;> rw [h] <;> constructor <;> nlinarith
    · constructor <;> nlinarith

end F32

/-! ## The two loops -/

theorem captureAngles_latched (P : Platform) (s : OpenXrLayer) (w : World) (v : XrView) :
    (captureAngles P s w v).1.anglesWrittenToReg = true := rfl

theorem scaleView_captureAngles (P : Platform) (s : OpenXrLayer) (w : World) (v v0 : XrView) :
    scaleView (captureAngles P s w v0).1 v = scaleView s v := rfl

/-- Once the latch is set the loop of `xrLocateViews` only rescales the views
`i, ..., i + n - 1`. -/
theorem locateLoop_latched (P : Platform) (n : Nat) :
    ∀ (i : Nat) (s : OpenXrLayer) (w : World) (views : List XrView),
      s.anglesWrittenToReg = true → i + n ≤ views.length →
      ∃ views2, locateLoop P n i s w views = .ok (s, w, views2) ∧
        views2.length = views.length ∧
        (∀ j, (j < i ∨ i + n ≤ j) → views2[j]? = views[j]?) ∧
        (∀ j v, i ≤ j → j < i + n → views[j]? = some v →
          views2[j]? = some (scaleView s v)) := by
  induction n with
  | zero =>
    intro i s w views _ _
    refine ⟨views, rfl, rfl, fun _ _ => rfl, ?_⟩
    intro j v h1 h2; omega
  | succ n ih =>
    intro i s w views hl hlen
    have hi : i < views.length := by omega
    obtain ⟨views2, h2, hlen2, hout, hin⟩ :=
      ih (i + 1) s w (views.set i (scaleView s (views[i]))) hl (by simp; omega)
    refine ⟨views2, ?_, ?_, ?_, ?_⟩
    · simp only [locateLoop, List.getElem?_eq_getElem hi, hl]
      simpa using h2
    · simpa using hlen2
    · intro j hj
      rw [hout j (by omega), List.getElem?_set_ne (by omega)]
    · intro j v hij hjn hv
      by_cases hji : j = i
      · subst hji
        rw [hout j (by omega)]
        rw [List.getElem?_eq_getElem hi] at hv
        simp only [Option.some.injEq] at hv
        simp [hv, hi]
      · rw [hin j v (by omega) (by omega)]
        rw [List.getElem?_set_ne (by omega)]
        exact hv

/-- The whole loop of `xrLocateViews`, for a count within the array. -/
theorem locateLoop_spec (P : Platform) (s : OpenXrLayer) (w : World) (views : List XrView)
    (count : Nat) (hcount : count ≤ views.length) :
    ∃ views2, locateLoop P count 0 s w views =
        .ok ((afterLocate P s w views count).1, (afterLocate P s w views count).2, views2) ∧
      views2.length = views.length ∧
      (∀ j, count ≤ j → views2[j]? = views[j]?) ∧
      (∀ j v, j < count → views[j]? = some v → views2[j]? = some (scaleView s v)) := by
  cases hl : s.anglesWrittenToReg with
  | true =>
    obtain ⟨views2, h, hlen, hout, hin⟩ := locateLoop_latched P count 0 s w views hl (by omega)
    refine ⟨views2, ?_, hlen, fun j hj => hout j (Or.inr (by omega)), ?_⟩
    · simp only [afterLocate, hl]; exact h
    · intro j v hj hv
      exact hin j v (Nat.zero_le _) (by omega) hv
  | false =>
    cases count with
    | zero =>
      refine ⟨views, ?_, rfl, fun _ _ => rfl, ?_⟩
      · simp [afterLocate, hl, locateLoop]
      · intro j v hj; omega
    | succ n =>
      cases views with
      | nil => simp at hcount
      | cons v0 rest =>
        obtain ⟨views2, h, hlen, hout, hin⟩ :=
          locateLoop_latched P n 1 (captureAngles P s w v0).1 (captureAngles P s w v0).2
            ((v0 :: rest).set 0 (scaleView (captureAngles P s w v0).1 v0))
            (captureAngles_latched P s w v0) (by simp at hcount ⊢; omega)
        refine ⟨views2, ?_, ?_, ?_, ?_⟩
        · simp only [afterLocate, hl, locateLoop, List.getElem?_cons_zero, Bool.not_false,
            if_true]
          exact h
        · simpa using hlen
        · intro j hj
          rw [hout j (Or.inr (by omega))]
          cases j with
          | zero => omega
          | succ j => simp
        · intro j v hj hv
          cases j with
          | zero =>
            simp only [List.getElem?_cons_zero, Option.some.injEq] at hv
            rw [hout 0 (Or.inl (by omega))]
            simp [hv, scaleView_captureAngles]
          | succ j =>
            have := hin (j + 1) v (by omega) (by omega) (by simpa using hv)
            rw [this, scaleView_captureAngles]

/-- The whole loop of `xrEnumerateViewConfigurationViews`, for a count within both
arrays. -/
theorem enumerateLoop_spec (P : Platform) (s : OpenXrLayer) (n : Nat) :
    ∀ (i : Nat) (views : List XrViewConfigurationView),
      i + n ≤ views.length → i + n ≤ 2 →
      ∃ views2, enumerateLoop P s n i views = .ok views2 ∧
        views2.length = views.length ∧
        (∀ j, (j < i ∨ i + n ≤ j) → views2[j]? = views[j]?) ∧
        (∀ j v fov, i ≤ j → j < i + n → views[j]? = some v → s.cachedEyeFov? j = some fov →
          views2[j]? = some { v with
            recommendedImageRectHeight := rectHeight P s fov v.recommendedImageRectHeight }) := by
  induction n with
  | zero =>
    intro i views _ _
    refine ⟨views, rfl, rfl, fun _ _ => rfl, ?_⟩
    intro j v fov h1 h2; omega
  | succ n ih =>
    intro i views hlen h2
    have hi : i < views.length := by omega
    have hc : ∃ fov, s.cachedEyeFov? i = some fov := by
      have : i = 0 ∨ i = 1 := by omega
      rcases this with h | h <;> subst h <;> exact ⟨_, rfl⟩
    obtain ⟨fov, hfov⟩ := hc
    obtain ⟨views2, hrun, hlen2, hout, hin⟩ :=
      ih (i + 1) (views.set i { views[i] with
        recommendedImageRectHeight := rectHeight P s fov views[i].recommendedImageRectHeight })
        (by simp; omega) (by omega)
    refine ⟨views2, ?_, ?_, ?_, ?_⟩
    · simp only [enumerateLoop, List.getElem?_eq_getElem hi, hfov]
      exact hrun
    · simpa using hlen2
    · intro j hj
      rw [hout j (by omega), List.getElem?_set_ne (by omega)]
    · intro j v fov2 hij hjn hv hf
      by_cases hji : j = i
      · subst hji
        rw [hout j (by omega)]
        rw [List.getElem?_eq_getElem hi] at hv
        simp only [Option.some.injEq] at hv
        rw [hfov] at hf
        simp only [Option.some.injEq] at hf
        simp [hv, hi, hf]
      · rw [hin j v fov2 (by omega) (by omega) _ hf]
        rw [List.getElem?_set_ne (by omega)]
        exact hv

/-! ## The two view methods, gate open and gate closed -/

/-- The method `xrLocateViews` when its condition holds and the count is within the
array. -/
theorem xrLocateViews_open (P : Platform) (s : OpenXrLayer) (w : World)
    (viewConfigurationType viewCapacityInput : Nat) (fwd : LocateOut)
    (hok : XR_SUCCEEDED fwd.result = true) (hcap : viewCapacityInput ≠ 0)
    (hty : viewConfigurationType = XR_VIEW_CONFIGURATION_TYPE_PRIMARY_STEREO)
    (hcount : fwd.viewCountOutput ≤ fwd.views.length) :
    ∃ views2, xrLocateViews P s w viewConfigurationType viewCapacityInput fwd =
        .ok ⟨{ fwd with views := views2 },
          (afterLocate P s (w.forward .xrLocateViews) fwd.views fwd.viewCountOutput).1,
          (afterLocate P s (w.forward .xrLocateViews) fwd.views fwd.viewCountOutput).2⟩ ∧
      views2.length = fwd.views.length ∧
      (∀ j, fwd.viewCountOutput ≤ j → views2[j]? = fwd.views[j]?) ∧
      (∀ j v, j < fwd.viewCountOutput → fwd.views[j]? = some v →
        views2[j]? = some (scaleView s v)) := by
  obtain ⟨views2, hrun, hlen, hout, hin⟩ :=
    locateLoop_spec P s (w.forward .xrLocateViews) fwd.views fwd.viewCountOutput hcount
  refine ⟨views2, ?_, hlen, hout, hin⟩
  simp [xrLocateViews, hok, hty, hrun, hcap]

/-- The method `xrLocateViews` when its condition fails. -/
theorem xrLocateViews_closed (P : Platform) (s : OpenXrLayer) (w : World)
    (viewConfigurationType viewCapacityInput : Nat) (fwd : LocateOut)
    (h : XR_SUCCEEDED fwd.result = false ∨ viewCapacityInput = 0 ∨
      viewConfigurationType ≠ XR_VIEW_CONFIGURATION_TYPE_PRIMARY_STEREO) :
    xrLocateViews P s w viewConfigurationType viewCapacityInput fwd =
      .ok ⟨fwd, s, w.forward .xrLocateViews⟩ := by
  rcases h with h | h | h
  · simp [xrLocateViews, h]
  · simp [xrLocateViews, h]
  · simp [xrLocateViews, h]

/-- The method `xrEnumerateViewConfigurationViews` when its conditions hold and the count
is within both arrays. -/
theorem xrEnumerateViewConfigurationViews_open (P : Platform) (s : OpenXrLayer) (w : World)
    (viewConfigurationType viewCapacityInput : Nat) (fwd : EnumerateOut)
    (hok : XR_SUCCEEDED fwd.result = true) (hcap : viewCapacityInput ≠ 0)
    (hty : viewConfigurationType = XR_VIEW_CONFIGURATION_TYPE_PRIMARY_STEREO)
    (hcount : fwd.viewCountOutput ≤ fwd.views.length) (h2 : fwd.viewCountOutput ≤ 2) :
    ∃ views2, xrEnumerateViewConfigurationViews P s w viewConfigurationType viewCapacityInput fwd =
        .ok ⟨{ fwd with views := views2 }, s, w.forward .xrEnumerateViewConfigurationViews⟩ ∧
      views2.length = fwd.views.length ∧
      (∀ j, fwd.viewCountOutput ≤ j → views2[j]? = fwd.views[j]?) ∧
      (∀ j v fov, j < fwd.viewCountOutput → fwd.views[j]? = some v →
        s.cachedEyeFov? j = some fov →
        views2[j]? = some { v with
          recommendedImageRectHeight := rectHeight P s fov v.recommendedImageRectHeight }) := by
  obtain ⟨views2, hrun, hlen, hout, hin⟩ :=
    enumerateLoop_spec P s fwd.viewCountOutput 0 fwd.views (by omega) (by omega)
  refine ⟨views2, ?_, hlen, fun j hj => hout j (Or.inr (by omega)), ?_⟩
  · simp [xrEnumerateViewConfigurationViews, hok, hty, hrun, hcap]
  · intro j v fov hj hv hf
    exact hin j v fov (Nat.zero_le _) (by omega) hv hf

/-- The method `xrEnumerateViewConfigurationViews` when its conditions fail. -/
theorem xrEnumerateViewConfigurationViews_closed (P : Platform) (s : OpenXrLayer) (w : World)
    (viewConfigurationType viewCapacityInput : Nat) (fwd : EnumerateOut)
    (h : XR_SUCCEEDED fwd.result = false ∨ viewCapacityInput = 0 ∨
      viewConfigurationType ≠ XR_VIEW_CONFIGURATION_TYPE_PRIMARY_STEREO) :
    xrEnumerateViewConfigurationViews P s w viewConfigurationType viewCapacityInput fwd =
      .ok ⟨fwd, s, w.forward .xrEnumerateViewConfigurationViews⟩ := by
  rcases h with h | h | h
  · simp [xrEnumerateViewConfigurationViews, h]
  · simp [xrEnumerateViewConfigurationViews, h]
  · simp [xrEnumerateViewConfigurationViews, h]

/-- The method `xrLocateViews` returns whenever the count is within the array. -/
theorem xrLocateViews_returns (P : Platform) (s : OpenXrLayer) (w : World)
    (viewConfigurationType viewCapacityInput : Nat) (fwd : LocateOut)
    (hcount : fwd.viewCountOutput ≤ fwd.views.length) :
    ∃ r, xrLocateViews P s w viewConfigurationType viewCapacityInput fwd = .ok r := by
  by_cases hg : XR_SUCCEEDED fwd.result = true ∧ viewCapacityInput ≠ 0 ∧
      viewConfigurationType = XR_VIEW_CONFIGURATION_TYPE_PRIMARY_STEREO
  · obtain ⟨views2, hrun, _⟩ := xrLocateViews_open P s w
      viewConfigurationType viewCapacityInput fwd hg.1 hg.2.1 hg.2.2 hcount
    exact ⟨_, hrun⟩
  · refine ⟨_, xrLocateViews_closed P s w viewConfigurationType viewCapacityInput fwd ?_⟩
    by_cases a : XR_SUCCEEDED fwd.result = true
    · by_cases b : viewCapacityInput = 0
      · exact Or.inr (Or.inl b)
      · exact Or.inr (Or.inr fun c => hg ⟨a, b, c⟩)
    · exact Or.inl (by simpa using a)

/-- The method `xrEnumerateViewConfigurationViews` returns whenever the count is within
both arrays. -/
theorem xrEnumerateViewConfigurationViews_returns (P : Platform) (s : OpenXrLayer) (w : World)
    (viewConfigurationType viewCapacityInput : Nat) (fwd : EnumerateOut)
    (hcount : fwd.viewCountOutput ≤ fwd.views.length) (h2 : fwd.viewCountOutput ≤ 2) :
    ∃ r, xrEnumerateViewConfigurationViews P s w viewConfigurationType viewCapacityInput fwd =
      .ok r := by
  by_cases hg : XR_SUCCEEDED fwd.result = true ∧ viewCapacityInput ≠ 0 ∧
      viewConfigurationType = XR_VIEW_CONFIGURATION_TYPE_PRIMARY_STEREO
  · obtain ⟨views2, hrun, _⟩ := xrEnumerateViewConfigurationViews_open P s w
      viewConfigurationType viewCapacityInput fwd hg.1 hg.2.1 hg.2.2 hcount h2
    exact ⟨_, hrun⟩
  · refine ⟨_, xrEnumerateViewConfigurationViews_closed P s w viewConfigurationType
      viewCapacityInput fwd ?_⟩
    by_cases a : XR_SUCCEEDED fwd.result = true
    · by_cases b : viewCapacityInput = 0
      · exact Or.inr (Or.inl b)
      · exact Or.inr (Or.inr fun c => hg ⟨a, b, c⟩)
    · exact Or.inl (by simpa using a)

/-- With the latch set, the loop of `xrLocateViews` ends with the layer and the world it
started with. -/
theorem locateLoop_latched_state (P : Platform) (n : Nat) :
    ∀ (i : Nat) (s : OpenXrLayer) (w : World) (views : List XrView)
      (out : OpenXrLayer × World × List XrView),
      s.anglesWrittenToReg = true → locateLoop P n i s w views = .ok out →
      out.1 = s ∧ out.2.1 = w := by
  induction n with
  | zero =>
    intro i s w views out _ h
    simp only [locateLoop, Except.ok.injEq] at h
    subst h; exact ⟨rfl, rfl⟩
  | succ n ih =>
    intro i s w views out hl h
    unfold locateLoop at h
    split at h
    · simp only [hl, Bool.not_true, Bool.false_eq_true, if_false] at h
      exact ih _ s w _ out hl h
    · cases h

theorem fovScale_1000 : fovScale (some 1000) = F32.one := by decide

theorem fovScale_none : fovScale none = F32.one := by decide

theorem scaled_3927_by_1200 :
    F32.mul (F32.ofDecimal 3927 10000) (fovScale (some 1200)) = F32.ofDecimal 47124 100000 := by
  decide

theorem ofDecimal_3927_wf : (F32.ofDecimal 3927 10000).WellFormed := by
  decide

/-- C1: a successful primary-stereo `xrLocateViews` with `viewCapacityInput >= 1` returns,
for every view the runtime reported, `angleUp` as the reported `angleUp` times `fovUp` and
`angleDown` as the reported `angleDown` times `fovDown` (float products; the cached
baseline plays no part). With `fovUp = 1.0f` every binary32 `angleUp`, so also the float
nearest to 0.3927, comes back unchanged, and with the scale of the setting 1200 the float
nearest to 0.3927 becomes the float nearest to 0.47124. -/
theorem xrLocateViews_scales_reported_angles (P : Platform) (s : OpenXrLayer) (w : World)
    (viewConfigurationType viewCapacityInput : Nat) (fwd : LocateOut)
    (hok : XR_SUCCEEDED fwd.result = true) (hcap : 1 ≤ viewCapacityInput)
    (hty : viewConfigurationType = XR_VIEW_CONFIGURATION_TYPE_PRIMARY_STEREO)
    (hcount : fwd.viewCountOutput ≤ fwd.views.length) :
    ∃ r, xrLocateViews P s w viewConfigurationType viewCapacityInput fwd = .ok r ∧
      ∀ i v, i < fwd.viewCountOutput → fwd.views[i]? = some v →
        ∃ v2, r.out.views[i]? = some v2 ∧
          v2.fov.angleUp = F32.mul v.fov.angleUp s.fovUp ∧
          v2.fov.angleDown = F32.mul v.fov.angleDown s.fovDown ∧
          (s.fovUp = F32.one → v.fov.angleUp.WellFormed → v2.fov.angleUp = v.fov.angleUp) ∧
          (s.fovUp = fovScale (some 1000) → v.fov.angleUp = F32.ofDecimal 3927 10000 →
            v2.fov.angleUp = F32.ofDecimal 3927 10000) ∧
          (s.fovUp = fovScale (some 1200) → v.fov.angleUp = F32.ofDecimal 3927 10000 →
            v2.fov.angleUp = F32.ofDecimal 47124 100000) := by
  obtain ⟨views2, hrun, _, _, hin⟩ :=
    xrLocateViews_open P s w viewConfigurationType viewCapacityInput fwd hok (by omega) hty hcount
  refine ⟨_, hrun, ?_⟩
  intro i v hi hv
  refine ⟨scaleView s v, hin i v hi hv, rfl, rfl, ?_, ?_, ?_⟩
  · intro h1 hwf
    show F32.mul v.fov.angleUp s.fovUp = v.fov.angleUp
    rw [h1]; exact F32.mul_one_of_wellFormed _ hwf
  · intro h1 h2
    show F32.mul v.fov.angleUp s.fovUp = _
    rw [h1, h2, fovScale_1000]
    exact F32.mul_one_of_wellFormed _ ofDecimal_3927_wf
  · intro h1 h2
    show F32.mul v.fov.angleUp s.fovUp = _
    rw [h1, h2]; exact scaled_3927_by_1200

theorem xrLocateViews_scales_reported_angles_witness :
    ∃ r v2, xrLocateViews samplePlatform (sampleLayer (fovScale (some 1200)) F32.one false)
        sampleWorld XR_VIEW_CONFIGURATION_TYPE_PRIMARY_STEREO 2
        (sampleLocate (F32.ofDecimal 3927 10000) (F32.ofDecimal 3491 10000)) = .ok r ∧
      r.out.views[0]? = some v2 ∧ v2.fov.angleUp = F32.ofDecimal 47124 100000 := by
  obtain ⟨r, hr, h⟩ := xrLocateViews_scales_reported_angles samplePlatform
    (sampleLayer (fovScale (some 1200)) F32.one false) sampleWorld
    XR_VIEW_CONFIGURATION_TYPE_PRIMARY_STEREO 2
    (sampleLocate (F32.ofDecimal 3927 10000) (F32.ofDecimal 3491 10000))
    (by decide) (by decide) rfl (by decide)
  obtain ⟨v2, hv2, _, _, _, _, h1200⟩ :=
    h 0 (sampleView (F32.ofDecimal 3927 10000) (F32.ofDecimal 3491 10000)) (by decide) rfl
  exact ⟨r, v2, hr, hv2, h1200 rfl rfl⟩

/-! ## The rectangle-height variant of the correction -/

/-- C2: a successful primary-stereo `xrEnumerateViewConfigurationViews` with
`viewCapacityInput >= 1` gives every returned view `i` the height
`(H/2) * (tan(up_i * fovUp) / tan(up_i)) + (H/2) * (tan(down_i * fovDown) / tan(down_i))`,
where `H` is the height the runtime reported for that view and `(up_i, down_i)` the cached
baseline of eye `i`; the arithmetic is the one of the code: `H/2` is the unsigned
quotient, products, quotients and the sum are float operations, and the sum is converted
to `uint32_t`. Result code and view count are the ones of the runtime. -/
theorem xrEnumerateViewConfigurationViews_rect_height (P : Platform) (s : OpenXrLayer)
    (w : World) (viewConfigurationType viewCapacityInput : Nat) (fwd : EnumerateOut)
    (hok : XR_SUCCEEDED fwd.result = true) (hcap : 1 ≤ viewCapacityInput)
    (hty : viewConfigurationType = XR_VIEW_CONFIGURATION_TYPE_PRIMARY_STEREO)
    (hcount : fwd.viewCountOutput ≤ fwd.views.length) (h2 : fwd.viewCountOutput ≤ 2) :
    ∃ r, xrEnumerateViewConfigurationViews P s w viewConfigurationType viewCapacityInput fwd =
        .ok r ∧
      r.out.result = fwd.result ∧ r.out.viewCountOutput = fwd.viewCountOutput ∧
      ∀ i v, i < fwd.viewCountOutput → fwd.views[i]? = some v →
        ∃ fov v2, s.cachedEyeFov? i = some fov ∧ r.out.views[i]? = some v2 ∧
          v2.recommendedImageRectHeight =
            P.toUInt32
              (F32.add
                (F32.mul (F32.ofNat (v.recommendedImageRectHeight / 2))
                  (F32.div (P.tan (F32.mul fov.angleUp s.fovUp)) (P.tan fov.angleUp)))
                (F32.mul (F32.ofNat (v.recommendedImageRectHeight / 2))
                  (F32.div (P.tan (F32.mul fov.angleDown s.fovDown)) (P.tan fov.angleDown)))) := by
  obtain ⟨views2, hrun, _, _, hin⟩ :=
    xrEnumerateViewConfigurationViews_open P s w viewConfigurationType viewCapacityInput fwd hok
      (by omega) hty hcount h2
  refine ⟨_, hrun, rfl, rfl, ?_⟩
  intro i v hi hv
  have hc : ∃ fov, s.cachedEyeFov? i = some fov := by
    have : i = 0 ∨ i = 1 := by omega
    rcases this with h | h <;> subst h <;> exact ⟨_, rfl⟩
  obtain ⟨fov, hfov⟩ := hc
  exact ⟨fov, _, hfov, hin i v fov hi hv hfov, rfl⟩

theorem xrEnumerateViewConfigurationViews_rect_height_witness :
    ∃ r v2, xrEnumerateViewConfigurationViews samplePlatform (sampleLayer F32.one F32.one false)
        sampleWorld XR_VIEW_CONFIGURATION_TYPE_PRIMARY_STEREO 2 (sampleEnumerate 2000 2000) =
          .ok r ∧
      r.out.views[1]? = some v2 ∧ v2.recommendedImageRectHeight = 2000 := by
  obtain ⟨r, hr, _, _, h⟩ := xrEnumerateViewConfigurationViews_rect_height samplePlatform
    (sampleLayer F32.one F32.one false) sampleWorld XR_VIEW_CONFIGURATION_TYPE_PRIMARY_STEREO 2
    (sampleEnumerate 2000 2000) (by decide) (by decide) rfl (by decide) (by decide)
  obtain ⟨fov, v2, hfov, hv2, hh⟩ := h 1 (sampleConfigView 2000) (by decide) rfl
  refine ⟨r, v2, hr, hv2, ?_⟩
  have hf : fov = ⟨.fin false 0, .fin false 0, piOver4, piOver4⟩ := by
    have : (sampleLayer F32.one F32.one false).cachedEyeFov? 1 =
        some ⟨.fin false 0, .fin false 0, piOver4, piOver4⟩ := rfl
    rw [this] at hfov
    exact (Option.some.inj hfov).symm
  rw [hh, hf]
  decide

/-! ## Neutral scales and the rectangle height -/

theorem F32.div_self_cases (t : F32) : F32.div t t = F32.nan ∨ F32.div t t = F32.one := by
  cases t with
  | nan => exact Or.inl rfl
  | inf s => exact Or.inl rfl
  | fin s k =>
    by_cases hk : k = 0
    · subst hk; exact Or.inl (by simp [F32.div])
    · exact Or.inr (F32.div_self_of_finite s k hk)

theorem F32.mul_nan (x : F32) : F32.mul x F32.nan = F32.nan := by
  cases x <;> rfl

theorem Platform.toUInt32_nan (P : Platform) : P.toUInt32 F32.nan = P.cvtUInt F32.nan % 2 ^ 32 :=
  rfl

theorem Platform.toUInt32_of_trunc (P : Platform) (x : F32) (n : Nat)
    (h : x.trunc? = some (n : Int)) (hn : n < 2 ^ 32) : P.toUInt32 x = n := by
  unfold Platform.toUInt32
  rw [h]
  simp only []
  rw [if_pos ⟨by positivity, by exact_mod_cast hn⟩]
  exact Int.toNat_ofNat _

/-- The height assigned at the baseline `π / 4` with neutral scales: the conversion of NaN
when the tangent is unusable, and twice the half otherwise. -/
theorem rectHeight_sample_cases (P : Platform) :
    (rectHeight P (sampleLayer F32.one F32.one false) ⟨.fin false 0, .fin false 0, piOver4, piOver4⟩ 1
        = P.cvtUInt F32.nan % 2 ^ 32 ∧
      rectHeight P (sampleLayer F32.one F32.one false) ⟨.fin false 0, .fin false 0, piOver4, piOver4⟩ 3
        = P.cvtUInt F32.nan % 2 ^ 32) ∨
    (rectHeight P (sampleLayer F32.one F32.one false) ⟨.fin false 0, .fin false 0, piOver4, piOver4⟩ 1
        = 0 ∧
      rectHeight P (sampleLayer F32.one F32.one false) ⟨.fin false 0, .fin false 0, piOver4, piOver4⟩ 3
        = 2) := by
  have hm : F32.mul piOver4 F32.one = piOver4 := by decide
  have e : ∀ H, rectHeight P (sampleLayer F32.one F32.one false)
      ⟨.fin false 0, .fin false 0, piOver4, piOver4⟩ H =
      P.toUInt32 (F32.add
        (F32.mul (F32.ofNat (H / 2)) (F32.div (P.tan piOver4) (P.tan piOver4)))
        (F32.mul (F32.ofNat (H / 2)) (F32.div (P.tan piOver4) (P.tan piOver4)))) := by
    intro H
    simp only [rectHeight, sampleLayer, hm]
  rcases F32.div_self_cases (P.tan piOver4) with h | h
  · left
    rw [e, e, h, F32.mul_nan, F32.mul_nan]
    exact ⟨rfl, rfl⟩
  · right
    rw [e, e, h]
    constructor
    · exact P.toUInt32_of_trunc _ 0 (by decide) (by norm_num)
    · exact P.toUInt32_of_trunc _ 2 (by decide) (by norm_num)

/-- C3, as stated, fails: with both scales `1.0f` and the baseline `π / 4`, on no platform
does a successful primary-stereo call return the reported heights 1 and 3 unchanged (the
halves are unsigned quotients, so the code yields 0 and 2 wherever `tan (π/4)` is a
finite number other than zero). -/
theorem neutral_rect_height_not_identity :
    ¬ ∃ (P : Platform) (r : Ret EnumerateOut),
      xrEnumerateViewConfigurationViews P (sampleLayer F32.one F32.one false) sampleWorld
        XR_VIEW_CONFIGURATION_TYPE_PRIMARY_STEREO 2 (sampleEnumerate 1 3) = .ok r ∧
      (r.out.views.map fun v => v.recommendedImageRectHeight) = [1, 3] := by
  rintro ⟨P, r, hr, hh⟩
  obtain ⟨views2, hrun, hlen, _, hin⟩ :=
    xrEnumerateViewConfigurationViews_open P (sampleLayer F32.one F32.one false) sampleWorld
      XR_VIEW_CONFIGURATION_TYPE_PRIMARY_STEREO 2 (sampleEnumerate 1 3) rfl (by decide) rfl
      (by decide) (by decide)
  rw [hrun] at hr
  have h0 := hin 0 (sampleConfigView 1) _ (by decide) rfl rfl
  have h1 := hin 1 (sampleConfigView 3) _ (by decide) rfl rfl
  have hviews : r.out.views = views2 := by
    cases hr; rfl
  rw [hviews] at hh
  match views2, hlen, h0, h1, hh with
  | [a, b], _, h0, h1, hh =>
    simp only [List.getElem?_cons_zero, Option.some.injEq] at h0
    simp only [List.getElem?_cons_succ, List.getElem?_cons_zero, Option.some.injEq] at h1
    subst h0 h1
    simp only [List.map_cons, List.map_nil, sampleConfigView, sampleLayer, List.cons.injEq,
      and_true] at hh
    have hc := rectHeight_sample_cases P
    simp only [sampleLayer] at hc
    rcases hc with ⟨c1, c3⟩ | ⟨c1, c3⟩
    · omega
    · omega

theorem F32.finiteNonzero_iff (t : F32) :
    t.finiteNonzero = true → ∃ sg k, k ≠ 0 ∧ t = F32.fin sg k := by
  cases t with
  | nan => intro h; cases h
  | inf s => intro h; cases h
  | fin s k =>
    intro h
    refine ⟨s, k, ?_, rfl⟩
    simpa [F32.finiteNonzero] using h

/-- C3, amended: with `fovUp = fovDown = 1.0f`, a successful primary-stereo
`xrEnumerateViewConfigurationViews` with `viewCapacityInput >= 1` gives every returned view
whose eye has binary32 baseline angles with a finite, nonzero tangent, and whose reported
height `H` is below `2^25`, the height `2 * (H / 2)` with the unsigned quotient `H / 2`:
the reported height itself whenever `H` is even. -/
theorem xrEnumerateViewConfigurationViews_neutral (P : Platform) (s : OpenXrLayer)
    (w : World) (viewConfigurationType viewCapacityInput : Nat) (fwd : EnumerateOut)
    (hok : XR_SUCCEEDED fwd.result = true) (hcap : 1 ≤ viewCapacityInput)
    (hty : viewConfigurationType = XR_VIEW_CONFIGURATION_TYPE_PRIMARY_STEREO)
    (hcount : fwd.viewCountOutput ≤ fwd.views.length) (h2 : fwd.viewCountOutput ≤ 2)
    (hup : s.fovUp = F32.one) (hdown : s.fovDown = F32.one) :
    ∃ r, xrEnumerateViewConfigurationViews P s w viewConfigurationType viewCapacityInput fwd =
        .ok r ∧
      ∀ i v fov, i < fwd.viewCountOutput → fwd.views[i]? = some v →
        s.cachedEyeFov? i = some fov →
        fov.angleUp.WellFormed → fov.angleDown.WellFormed →
        (P.tan fov.angleUp).finiteNonzero = true → (P.tan fov.angleDown).finiteNonzero = true →
        v.recommendedImageRectHeight < 2 ^ 25 →
        ∃ v2, r.out.views[i]? = some v2 ∧
          v2.recommendedImageRectHeight = 2 * (v.recommendedImageRectHeight / 2) ∧
          (v.recommendedImageRectHeight % 2 = 0 →
            v2.recommendedImageRectHeight = v.recommendedImageRectHeight) := by
  obtain ⟨views2, hrun, _, _, hin⟩ :=
    xrEnumerateViewConfigurationViews_open P s w viewConfigurationType viewCapacityInput fwd hok
      (by omega) hty hcount h2
  refine ⟨_, hrun, ?_⟩
  intro i v fov hi hv hfov wup wdown tup tdown hH
  have key := rectHeight_neutral P s fov v.recommendedImageRectHeight hup hdown wup wdown
    (F32.finiteNonzero_iff _ tup) (F32.finiteNonzero_iff _ tdown) hH
  refine ⟨_, hin i v fov hi hv hfov, key, ?_⟩
  intro heven
  show rectHeight P s fov v.recommendedImageRectHeight = v.recommendedImageRectHeight
  rw [key]; omega

theorem xrEnumerateViewConfigurationViews_neutral_witness :
    ∃ r v2, xrEnumerateViewConfigurationViews samplePlatform (sampleLayer F32.one F32.one false)
        sampleWorld XR_VIEW_CONFIGURATION_TYPE_PRIMARY_STEREO 2 (sampleEnumerate 2064 2065) =
          .ok r ∧
      r.out.views[1]? = some v2 ∧ v2.recommendedImageRectHeight = 2064 := by
  obtain ⟨r, hr, h⟩ := xrEnumerateViewConfigurationViews_neutral samplePlatform
    (sampleLayer F32.one F32.one false) sampleWorld XR_VIEW_CONFIGURATION_TYPE_PRIMARY_STEREO 2
    (sampleEnumerate 2064 2065) (by decide) (by decide) rfl (by decide) (by decide) rfl rfl
  obtain ⟨v2, hv2, hh, _⟩ := h 1 (sampleConfigView 2065)
    ⟨.fin false 0, .fin false 0, piOver4, piOver4⟩ (by decide) rfl rfl (by decide) (by decide)
    (by decide) (by decide) (by decide)
  exact ⟨r, v2, hr, hv2, hh⟩

/-! ## Result codes -/

theorem XR_FAILED_eq_not_succeeded (r : XrResult) : XR_FAILED r = !XR_SUCCEEDED r := by
  unfold XR_FAILED XR_SUCCEEDED
  by_cases h : (0 : Int) ≤ r
  · have : ¬ r < 0 := not_lt.mpr h
    simp [h, this]
  · have : r < 0 := not_le.mp h
    simp [h, this]

/-- C4, as stated, fails: with a correctly tagged descriptor and a forwarded
`xrCreateInstance` that returned `XR_ERROR_RUNTIME_FAILURE`, the layer returns
`XR_SUCCESS` when the instance properties query succeeds, and throws out of `CHECK_XRCMD`
when that query fails; on neither path does it return the forwarded code. -/
theorem xrCreateInstance_drops_forwarded_failure :
    (∃ r, xrCreateInstance OpenXrLayer.new sampleWorld XR_TYPE_INSTANCE_CREATE_INFO
        XR_ERROR_RUNTIME_FAILURE XR_SUCCESS = .ok r ∧
      r.out = XR_SUCCESS ∧ r.out ≠ XR_ERROR_RUNTIME_FAILURE) ∧
    xrCreateInstance OpenXrLayer.new sampleWorld XR_TYPE_INSTANCE_CREATE_INFO
        XR_ERROR_RUNTIME_FAILURE XR_ERROR_RUNTIME_FAILURE =
      .error (.xrCheckFailed XR_ERROR_RUNTIME_FAILURE) :=
  ⟨⟨_, rfl, rfl, by decide⟩, rfl⟩

/-- C4, amended: for a descriptor tagged `XR_TYPE_INSTANCE_CREATE_INFO`, `xrCreateInstance`
does not look at the result code of the forwarded `xrCreateInstance`: its outcome is the
same for every such code, it returns `XR_SUCCESS` when the bypass is set or the instance
properties query succeeds, and it throws out of `CHECK_XRCMD` when that query fails. -/
theorem xrCreateInstance_result (s : OpenXrLayer) (w : World) (createInfoType : Nat)
    (fwdResult propertiesResult : XrResult)
    (hty : createInfoType = XR_TYPE_INSTANCE_CREATE_INFO) :
    (∀ other, xrCreateInstance s w createInfoType other propertiesResult =
      xrCreateInstance s w createInfoType fwdResult propertiesResult) ∧
    (s.m_bypassApiLayer = true ∨ XR_SUCCEEDED propertiesResult = true →
      ∃ r, xrCreateInstance s w createInfoType fwdResult propertiesResult = .ok r ∧
        r.out = XR_SUCCESS) ∧
    (s.m_bypassApiLayer = false → XR_SUCCEEDED propertiesResult = false →
      xrCreateInstance s w createInfoType fwdResult propertiesResult =
        .error (.xrCheckFailed propertiesResult)) := by
  subst hty
  refine ⟨fun _ => rfl, ?_, ?_⟩
  · intro h
    by_cases hb : s.m_bypassApiLayer = true
    · have e : xrCreateInstance s w XR_TYPE_INSTANCE_CREATE_INFO fwdResult propertiesResult =
          .ok ⟨XR_SUCCESS, s, w.forward .xrCreateInstance⟩ := by
        simp [xrCreateInstance, hb]
      exact ⟨_, e, rfl⟩
    · have hp : XR_SUCCEEDED propertiesResult = true := by
        rcases h with h | h
        · exact absurd h hb
        · exact h
      have hf : XR_FAILED propertiesResult = false := by
        rw [XR_FAILED_eq_not_succeeded, hp]; rfl
      unfold xrCreateInstance
      simp only [bne_self_eq_false, Bool.false_eq_true, if_false, hb, CHECK_XRCMD, hf]
      exact ⟨_, rfl, rfl⟩
  · intro hb hp
    have hf : XR_FAILED propertiesResult = true := by
      rw [XR_FAILED_eq_not_succeeded, hp]; rfl
    simp [xrCreateInstance, hb, CHECK_XRCMD, hf]

theorem xrCreateInstance_result_witness :
    ∃ r, xrCreateInstance OpenXrLayer.new sampleWorld XR_TYPE_INSTANCE_CREATE_INFO
        XR_ERROR_VALIDATION_FAILURE XR_SUCCESS = .ok r ∧ r.out = XR_SUCCESS :=
  (xrCreateInstance_result OpenXrLayer.new sampleWorld XR_TYPE_INSTANCE_CREATE_INFO
    XR_ERROR_VALIDATION_FAILURE XR_SUCCESS rfl).2.1 (Or.inr (by decide))

/-- C5, as stated, fails for `xrGetSystem`: with a correctly tagged descriptor, the
head-mounted-display form factor, a forwarded call that succeeded with a system id other
than the cached one, and a failing system properties query, the method throws out of
`CHECK_XRCMD` and returns no result code. -/
theorem xrGetSystem_throws_after_success :
    xrGetSystem OpenXrLayer.new sampleWorld XR_TYPE_SYSTEM_GET_INFO
        XR_FORM_FACTOR_HEAD_MOUNTED_DISPLAY ⟨XR_SUCCESS, 1⟩ XR_ERROR_RUNTIME_FAILURE =
      .error (.xrCheckFailed XR_ERROR_RUNTIME_FAILURE) ∧
    ¬ ∃ r, xrGetSystem OpenXrLayer.new sampleWorld XR_TYPE_SYSTEM_GET_INFO
        XR_FORM_FACTOR_HEAD_MOUNTED_DISPLAY ⟨XR_SUCCESS, 1⟩ XR_ERROR_RUNTIME_FAILURE = .ok r ∧
      r.out = XR_SUCCESS := by
  have h : xrGetSystem OpenXrLayer.new sampleWorld XR_TYPE_SYSTEM_GET_INFO
        XR_FORM_FACTOR_HEAD_MOUNTED_DISPLAY ⟨XR_SUCCESS, 1⟩ XR_ERROR_RUNTIME_FAILURE =
      .error (.xrCheckFailed XR_ERROR_RUNTIME_FAILURE) := rfl
  refine ⟨h, ?_⟩
  rintro ⟨r, hr, _⟩
  rw [h] at hr
  cases hr

/-- C5, amended: `xrEnumerateViewConfigurationViews` and `xrLocateViews` return exactly the
result code of the forwarded call on every call on which no post-processing applies (the
forwarded call failed, `viewCapacityInput` is 0, or the type is not primary stereo),
whatever the reported count, and, when post-processing applies, whenever the reported view
count is within the arrays; they never return another code. `xrCreateSession` with a
correctly tagged descriptor always returns the forwarded result code. `xrGetSystem` with a
correctly tagged descriptor returns the forwarded result code unless the forwarded call
succeeded for the head-mounted display with a system id other than the cached one and the
system properties query fails: then it throws out of `CHECK_XRCMD`. -/
theorem forwarded_result_returned (P : Platform) (s : OpenXrLayer) (w : World)
    (viewConfigurationType viewCapacityInput : Nat) (efwd : EnumerateOut) (lfwd : LocateOut)
    (formFactor : Nat) (gfwd : GetSystemOut) (propertiesResult : XrResult)
    (systemId : Nat) (sessionResult : XrResult) :
    (∀ r, xrEnumerateViewConfigurationViews P s w viewConfigurationType viewCapacityInput efwd
        = .ok r → r.out.result = efwd.result) ∧
    (XR_SUCCEEDED efwd.result = false ∨ viewCapacityInput = 0 ∨
        viewConfigurationType ≠ XR_VIEW_CONFIGURATION_TYPE_PRIMARY_STEREO →
      ∃ r, xrEnumerateViewConfigurationViews P s w viewConfigurationType viewCapacityInput efwd
        = .ok r ∧ r.out.result = efwd.result) ∧
    (efwd.viewCountOutput ≤ efwd.views.length → efwd.viewCountOutput ≤ 2 →
      ∃ r, xrEnumerateViewConfigurationViews P s w viewConfigurationType viewCapacityInput efwd
        = .ok r ∧ r.out.result = efwd.result) ∧
    (∀ r, xrLocateViews P s w viewConfigurationType viewCapacityInput lfwd = .ok r →
      r.out.result = lfwd.result) ∧
    (XR_SUCCEEDED lfwd.result = false ∨ viewCapacityInput = 0 ∨
        viewConfigurationType ≠ XR_VIEW_CONFIGURATION_TYPE_PRIMARY_STEREO →
      ∃ r, xrLocateViews P s w viewConfigurationType viewCapacityInput lfwd = .ok r ∧
        r.out.result = lfwd.result) ∧
    (lfwd.viewCountOutput ≤ lfwd.views.length →
      ∃ r, xrLocateViews P s w viewConfigurationType viewCapacityInput lfwd = .ok r ∧
        r.out.result = lfwd.result) ∧
    (∀ r, xrGetSystem s w XR_TYPE_SYSTEM_GET_INFO formFactor gfwd propertiesResult = .ok r →
      r.out = gfwd.result) ∧
    (¬ (XR_SUCCEEDED gfwd.result = true ∧ formFactor = XR_FORM_FACTOR_HEAD_MOUNTED_DISPLAY ∧
        gfwd.systemId ≠ s.m_systemId ∧ XR_FAILED propertiesResult = true) →
      ∃ r, xrGetSystem s w XR_TYPE_SYSTEM_GET_INFO formFactor gfwd propertiesResult = .ok r ∧
        r.out = gfwd.result) ∧
    (XR_SUCCEEDED gfwd.result = true ∧ formFactor = XR_FORM_FACTOR_HEAD_MOUNTED_DISPLAY ∧
        gfwd.systemId ≠ s.m_systemId ∧ XR_FAILED propertiesResult = true →
      xrGetSystem s w XR_TYPE_SYSTEM_GET_INFO formFactor gfwd propertiesResult =
        .error (.xrCheckFailed propertiesResult)) ∧
    (∃ r, xrCreateSession s w XR_TYPE_SESSION_CREATE_INFO systemId sessionResult = .ok r ∧
      r.out = sessionResult) := by
  have he : ∀ r, xrEnumerateViewConfigurationViews P s w viewConfigurationType
      viewCapacityInput efwd = .ok r → r.out.result = efwd.result := by
    intro r hr
    unfold xrEnumerateViewConfigurationViews at hr
    simp only [] at hr
    split at hr
    · split at hr
      · split at hr
        · cases hr; rfl
        · cases hr
      · cases hr; rfl
    · cases hr; rfl
  have hl : ∀ r, xrLocateViews P s w viewConfigurationType viewCapacityInput lfwd = .ok r →
      r.out.result = lfwd.result := by
    intro r hr
    unfold xrLocateViews at hr
    simp only [] at hr
    split at hr
    · split at hr
      · cases hr; rfl
      · cases hr
    · cases hr; rfl
  have hg : ∀ r, xrGetSystem s w XR_TYPE_SYSTEM_GET_INFO formFactor gfwd propertiesResult =
      .ok r → r.out = gfwd.result := by
    intro r hr
    unfold xrGetSystem at hr
    simp only [bne_self_eq_false, Bool.false_eq_true, if_false] at hr
    split at hr
    · split at hr
      · split at hr
        · cases hr
        · cases hr; rfl
      · cases hr; rfl
    · cases hr; rfl
  refine ⟨he, ?_, ?_, hl, ?_, ?_, hg, ?_, ?_, ?_⟩
  · intro h
    exact ⟨_, xrEnumerateViewConfigurationViews_closed P s w viewConfigurationType
      viewCapacityInput efwd h, rfl⟩
  · intro h1 h2
    obtain ⟨r, hr⟩ := xrEnumerateViewConfigurationViews_returns P s w viewConfigurationType
      viewCapacityInput efwd h1 h2
    exact ⟨r, hr, he r hr⟩
  · intro h
    exact ⟨_, xrLocateViews_closed P s w viewConfigurationType viewCapacityInput lfwd h, rfl⟩
  · intro h1
    obtain ⟨r, hr⟩ := xrLocateViews_returns P s w viewConfigurationType viewCapacityInput lfwd h1
    exact ⟨r, hr, hl r hr⟩
  · intro hn
    have : ∃ r, xrGetSystem s w XR_TYPE_SYSTEM_GET_INFO formFactor gfwd propertiesResult =
        .ok r := by
      unfold xrGetSystem
      simp only [bne_self_eq_false, Bool.false_eq_true, if_false]
      split
      · rename_i hgate
        split
        · rename_i hid
          have hf : XR_FAILED propertiesResult = false := by
            by_contra hc
            apply hn
            simp only [Bool.and_eq_true, beq_iff_eq] at hgate
            exact ⟨hgate.1, hgate.2, by simpa using hid, by simpa using hc⟩
          simp [CHECK_XRCMD, hf]
        · exact ⟨_, rfl⟩
      · exact ⟨_, rfl⟩
    obtain ⟨r, hr⟩ := this
    exact ⟨r, hr, hg r hr⟩
  · rintro ⟨h1, h2, h3, h4⟩
    simp [xrGetSystem, h1, h2, h3, CHECK_XRCMD, h4]
  · unfold xrCreateSession
    simp only [bne_self_eq_false, Bool.false_eq_true, if_false]
    split
    · split <;> exact ⟨_, rfl, rfl⟩
    · exact ⟨_, rfl, rfl⟩

theorem forwarded_result_returned_witness :
    (∃ r, xrEnumerateViewConfigurationViews samplePlatform (sampleLayer F32.one F32.one false)
        sampleWorld XR_VIEW_CONFIGURATION_TYPE_PRIMARY_STEREO 0
        { result := XR_SUCCESS, viewCountOutput := 2, views := [] } = .ok r ∧
      r.out.result = XR_SUCCESS) ∧
    (∃ r, xrEnumerateViewConfigurationViews samplePlatform (sampleLayer F32.one F32.one false)
        sampleWorld 1000243000 4
        { result := XR_SUCCESS, viewCountOutput := 4,
          views := [sampleConfigView 2000, sampleConfigView 2000, sampleConfigView 2000,
            sampleConfigView 2000] } = .ok r ∧
      r.out.result = XR_SUCCESS) ∧
    (∃ r, xrLocateViews samplePlatform (sampleLayer F32.one F32.one false) sampleWorld
        XR_VIEW_CONFIGURATION_TYPE_PRIMARY_STEREO 1
        { result := XR_ERROR_SIZE_INSUFFICIENT, viewState := ⟨11, 0⟩, viewCountOutput := 2,
          views := [sampleView piOver4 piOver4] } = .ok r ∧
      r.out.result = XR_ERROR_SIZE_INSUFFICIENT) ∧
    (∃ r, xrLocateViews samplePlatform (sampleLayer F32.one F32.one false) sampleWorld
        XR_VIEW_CONFIGURATION_TYPE_PRIMARY_STEREO 2 (sampleLocate piOver4 piOver4) = .ok r ∧
      r.out.result = XR_SUCCESS) ∧
    ∃ r, xrGetSystem (sampleLayer F32.one F32.one false) sampleWorld XR_TYPE_SYSTEM_GET_INFO
        XR_FORM_FACTOR_HEAD_MOUNTED_DISPLAY ⟨XR_ERROR_RUNTIME_FAILURE, 0⟩ XR_SUCCESS = .ok r ∧
      r.out = XR_ERROR_RUNTIME_FAILURE :=
  have h0 := forwarded_result_returned samplePlatform (sampleLayer F32.one F32.one false)
    sampleWorld XR_VIEW_CONFIGURATION_TYPE_PRIMARY_STEREO 0
    { result := XR_SUCCESS, viewCountOutput := 2, views := [] }
    (sampleLocate piOver4 piOver4)
    XR_FORM_FACTOR_HEAD_MOUNTED_DISPLAY ⟨XR_ERROR_RUNTIME_FAILURE, 0⟩ XR_SUCCESS 0 XR_SUCCESS
  have h4 := forwarded_result_returned samplePlatform (sampleLayer F32.one F32.one false)
    sampleWorld 1000243000 4
    { result := XR_SUCCESS, viewCountOutput := 4,
      views := [sampleConfigView 2000, sampleConfigView 2000, sampleConfigView 2000,
        sampleConfigView 2000] }
    (sampleLocate piOver4 piOver4)
    XR_FORM_FACTOR_HEAD_MOUNTED_DISPLAY ⟨XR_ERROR_RUNTIME_FAILURE, 0⟩ XR_SUCCESS 0 XR_SUCCESS
  have h1 := forwarded_result_returned samplePlatform (sampleLayer F32.one F32.one false)
    sampleWorld XR_VIEW_CONFIGURATION_TYPE_PRIMARY_STEREO 1 (sampleEnumerate 2000 2000)
    { result := XR_ERROR_SIZE_INSUFFICIENT, viewState := ⟨11, 0⟩, viewCountOutput := 2,
      views := [sampleView piOver4 piOver4] }
    XR_FORM_FACTOR_HEAD_MOUNTED_DISPLAY ⟨XR_ERROR_RUNTIME_FAILURE, 0⟩ XR_SUCCESS 0 XR_SUCCESS
  have h2 := forwarded_result_returned samplePlatform (sampleLayer F32.one F32.one false)
    sampleWorld XR_VIEW_CONFIGURATION_TYPE_PRIMARY_STEREO 2 (sampleEnumerate 2000 2000)
    (sampleLocate piOver4 piOver4)
    XR_FORM_FACTOR_HEAD_MOUNTED_DISPLAY ⟨XR_ERROR_RUNTIME_FAILURE, 0⟩ XR_SUCCESS 0 XR_SUCCESS
  ⟨h0.2.1 (Or.inr (Or.inl rfl)), h4.2.1 (Or.inr (Or.inr (by decide))),
    h1.2.2.2.2.1 (Or.inl (by decide)), h2.2.2.2.2.2.1 (by decide),
    h2.2.2.2.2.2.2.2.1 (by decide)⟩

/-! ## Validation of the descriptor tag -/

/-- C6: when the type tag of the descriptor is not the expected one, each of
`xrCreateInstance`, `xrGetSystem` and `xrCreateSession` returns
`XR_ERROR_VALIDATION_FAILURE` and leaves the layer and the world as they were: no call is
forwarded, no member of the layer changes and the registry is neither written nor
changed. -/
theorem wrong_tag_rejected (s : OpenXrLayer) (w : World) (tag : Nat)
    (fwdResult propertiesResult : XrResult) (formFactor systemId : Nat) (gfwd : GetSystemOut) :
    (tag ≠ XR_TYPE_INSTANCE_CREATE_INFO →
      ∃ r, xrCreateInstance s w tag fwdResult propertiesResult = .ok r ∧
        r.out = XR_ERROR_VALIDATION_FAILURE ∧ r.layer = s ∧ r.world = w ∧
        r.world.forwarded = w.forwarded) ∧
    (tag ≠ XR_TYPE_SYSTEM_GET_INFO →
      ∃ r, xrGetSystem s w tag formFactor gfwd propertiesResult = .ok r ∧
        r.out = XR_ERROR_VALIDATION_FAILURE ∧ r.layer = s ∧ r.world = w ∧
        r.world.forwarded = w.forwarded) ∧
    (tag ≠ XR_TYPE_SESSION_CREATE_INFO →
      ∃ r, xrCreateSession s w tag systemId fwdResult = .ok r ∧
        r.out = XR_ERROR_VALIDATION_FAILURE ∧ r.layer = s ∧ r.world = w ∧
        r.world.forwarded = w.forwarded) := by
  refine ⟨?_, ?_, ?_⟩
  · intro h
    have e : xrCreateInstance s w tag fwdResult propertiesResult =
        .ok ⟨XR_ERROR_VALIDATION_FAILURE, s, w⟩ := by
      simp [xrCreateInstance, h]
    exact ⟨_, e, rfl, rfl, rfl, rfl⟩
  · intro h
    have e : xrGetSystem s w tag formFactor gfwd propertiesResult =
        .ok ⟨XR_ERROR_VALIDATION_FAILURE, s, w⟩ := by
      simp [xrGetSystem, h]
    exact ⟨_, e, rfl, rfl, rfl, rfl⟩
  · intro h
    have e : xrCreateSession s w tag systemId fwdResult =
        .ok ⟨XR_ERROR_VALIDATION_FAILURE, s, w⟩ := by
      simp [xrCreateSession, h]
    exact ⟨_, e, rfl, rfl, rfl, rfl⟩

theorem wrong_tag_rejected_witness :
    (∃ r, xrCreateInstance (sampleLayer F32.one F32.one true) sampleWorld 0 XR_SUCCESS XR_SUCCESS
        = .ok r ∧ r.out = XR_ERROR_VALIDATION_FAILURE ∧
        r.layer = sampleLayer F32.one F32.one true ∧ r.world = sampleWorld ∧
        r.world.forwarded = sampleWorld.forwarded) ∧
    (∃ r, xrGetSystem (sampleLayer F32.one F32.one true) sampleWorld 0
        XR_FORM_FACTOR_HEAD_MOUNTED_DISPLAY ⟨XR_SUCCESS, 1⟩ XR_SUCCESS = .ok r ∧
        r.out = XR_ERROR_VALIDATION_FAILURE ∧
        r.layer = sampleLayer F32.one F32.one true ∧ r.world = sampleWorld ∧
        r.world.forwarded = sampleWorld.forwarded) ∧
    (∃ r, xrCreateSession (sampleLayer F32.one F32.one true) sampleWorld 0 1 XR_SUCCESS
        = .ok r ∧ r.out = XR_ERROR_VALIDATION_FAILURE ∧
        r.layer = sampleLayer F32.one F32.one true ∧ r.world = sampleWorld ∧
        r.world.forwarded = sampleWorld.forwarded) :=
  have h := wrong_tag_rejected (sampleLayer F32.one F32.one true) sampleWorld 0 XR_SUCCESS
    XR_SUCCESS XR_FORM_FACTOR_HEAD_MOUNTED_DISPLAY 1 ⟨XR_SUCCESS, 1⟩
  ⟨h.1 (by decide), h.2.1 (by decide), h.2.2 (by decide)⟩

/-! ## Calls that pass through -/

/-- C7: an `xrLocateViews` call with `viewCapacityInput = 0`, or with a view configuration
type other than primary stereo, returns what the runtime produced (result, view state,
count and views), leaves every member of the layer (latch, cached baseline, scale factors)
as it was, and neither writes nor changes the registry. -/
theorem xrLocateViews_boundary (P : Platform) (s : OpenXrLayer) (w : World)
    (viewConfigurationType viewCapacityInput : Nat) (fwd : LocateOut)
    (h : viewCapacityInput = 0 ∨
      viewConfigurationType ≠ XR_VIEW_CONFIGURATION_TYPE_PRIMARY_STEREO) :
    ∃ r, xrLocateViews P s w viewConfigurationType viewCapacityInput fwd = .ok r ∧
      r.out = fwd ∧ r.layer = s ∧
      r.layer.anglesWrittenToReg = s.anglesWrittenToReg ∧
      r.layer.m_cachedEyeFov = s.m_cachedEyeFov ∧
      r.layer.fovUp = s.fovUp ∧ r.layer.fovDown = s.fovDown ∧
      r.world.regWrites = w.regWrites ∧ r.world.registry = w.registry :=
  ⟨_, xrLocateViews_closed P s w viewConfigurationType viewCapacityInput fwd (Or.inr h),
    rfl, rfl, rfl, rfl, rfl, rfl, rfl, rfl⟩

theorem xrLocateViews_boundary_witness :
    ∃ r, xrLocateViews samplePlatform (sampleLayer F32.one F32.one false) sampleWorld
        XR_VIEW_CONFIGURATION_TYPE_PRIMARY_STEREO 0 (sampleLocate piOver4 piOver4) = .ok r ∧
      r.out = sampleLocate piOver4 piOver4 ∧ r.layer.anglesWrittenToReg = false ∧
      r.world.regWrites = [] := by
  obtain ⟨r, hr, h1, h2, h3, _, _, _, h4, _⟩ := xrLocateViews_boundary samplePlatform
    (sampleLayer F32.one F32.one false) sampleWorld XR_VIEW_CONFIGURATION_TYPE_PRIMARY_STEREO 0
    (sampleLocate piOver4 piOver4) (Or.inl rfl)
  exact ⟨r, hr, h1, h3, h4⟩

/-- C8: an `xrEnumerateViewConfigurationViews` call with `viewCapacityInput = 0`, or with
a configuration type other than primary stereo, or whose forwarded call failed, changes no
rectangle height: result code, count and array are the ones the forwarded call produced,
and the layer is unchanged. -/
theorem xrEnumerateViewConfigurationViews_boundary (P : Platform) (s : OpenXrLayer) (w : World)
    (viewConfigurationType viewCapacityInput : Nat) (fwd : EnumerateOut)
    (h : viewCapacityInput = 0 ∨
      viewConfigurationType ≠ XR_VIEW_CONFIGURATION_TYPE_PRIMARY_STEREO ∨
      XR_SUCCEEDED fwd.result = false) :
    ∃ r, xrEnumerateViewConfigurationViews P s w viewConfigurationType viewCapacityInput fwd =
        .ok r ∧
      r.out.views = fwd.views ∧ r.out.viewCountOutput = fwd.viewCountOutput ∧
      r.out.result = fwd.result ∧ r.layer = s :=
  ⟨_, xrEnumerateViewConfigurationViews_closed P s w viewConfigurationType viewCapacityInput fwd
      (by
        rcases h with h | h | h
        · exact Or.inr (Or.inl h)
        · exact Or.inr (Or.inr h)
        · exact Or.inl h),
    rfl, rfl, rfl, rfl⟩

theorem xrEnumerateViewConfigurationViews_boundary_witness :
    ∃ r, xrEnumerateViewConfigurationViews samplePlatform (sampleLayer F32.one F32.one false)
        sampleWorld XR_VIEW_CONFIGURATION_TYPE_PRIMARY_STEREO 0 (sampleEnumerate 2065 2065) =
          .ok r ∧
      r.out.views = (sampleEnumerate 2065 2065).views ∧ r.out.result = XR_SUCCESS := by
  obtain ⟨r, hr, h1, _, h3, _⟩ := xrEnumerateViewConfigurationViews_boundary samplePlatform
    (sampleLayer F32.one F32.one false) sampleWorld XR_VIEW_CONFIGURATION_TYPE_PRIMARY_STEREO 0
    (sampleEnumerate 2065 2065) (Or.inl rfl)
  exact ⟨r, hr, h1, h3⟩

/-! ## The one-time capture -/

theorem Platform.toInt_of_trunc (P : Platform) (x : F32) (i : Int)
    (h : x.trunc? = some i) (hlo : -(2 ^ 31) ≤ i) (hhi : i < 2 ^ 31) : P.toInt x = i := by
  unfold Platform.toInt
  rw [h]
  simp only []
  rw [if_pos ⟨hlo, hhi⟩]

theorem systemAngle_3927 (P : Platform) : systemAngle P (F32.ofDecimal 3927 10000) = 22500 :=
  P.toInt_of_trunc _ 22500 (by decide) (by norm_num) (by norm_num)

theorem systemAngle_3491 (P : Platform) : systemAngle P (F32.ofDecimal 3491 10000) = 20001 :=
  P.toInt_of_trunc _ 20001 (by decide) (by norm_num) (by norm_num)

theorem afterLocate_capture (P : Platform) (s : OpenXrLayer) (w : World) (v0 : XrView)
    (rest : List XrView) (count : Nat) (hl : s.anglesWrittenToReg = false) (h1 : 1 ≤ count) :
    afterLocate P s w (v0 :: rest) count = captureAngles P s w v0 := by
  cases count with
  | zero => omega
  | succ n => simp [afterLocate, hl]

/-- C9: on a layer whose latch is false, an `xrLocateViews` call that succeeds with
`viewCapacityInput >= 1`, the primary-stereo type and at least one view returned makes
exactly two registry writes, `angle_up` and `angle_down`, with the values
`|a * 180000.0f / XM_PI|` converted to `int`, `a` being the `angleUp`, respectively the
`angleDown`, the runtime reported for view 0; it ends with the latch true and with the
baseline re-read from the registry, which holds the two values when it is writable. For a
reported `angleUp` of 0.3927 and `angleDown` of 0.3491 (the nearest floats) the writes are
`angle_up = 22500` and `angle_down = 20001`, which is within 2 of 20000. -/
theorem xrLocateViews_captures_eye0 (P : Platform) (s : OpenXrLayer) (w : World)
    (viewConfigurationType viewCapacityInput : Nat) (fwd : LocateOut) (v0 : XrView)
    (rest : List XrView)
    (hl : s.anglesWrittenToReg = false)
    (hok : XR_SUCCEEDED fwd.result = true) (hcap : 1 ≤ viewCapacityInput)
    (hty : viewConfigurationType = XR_VIEW_CONFIGURATION_TYPE_PRIMARY_STEREO)
    (hcount : fwd.viewCountOutput ≤ fwd.views.length) (h1 : 1 ≤ fwd.viewCountOutput)
    (hv : fwd.views = v0 :: rest) :
    ∃ r, xrLocateViews P s w viewConfigurationType viewCapacityInput fwd = .ok r ∧
      r.layer.anglesWrittenToReg = true ∧
      r.world.regWrites = w.regWrites ++
        [("angle_up", toDword (P.toInt
            (F32.abs (F32.div (F32.mul v0.fov.angleUp (F32.ofNat 180000)) XM_PI)))),
         ("angle_down", toDword (P.toInt
            (F32.abs (F32.div (F32.mul v0.fov.angleDown (F32.ofNat 180000)) XM_PI))))] ∧
      (w.regWritable = true →
        r.world.registry.lookup "angle_up" = some (toDword (P.toInt
            (F32.abs (F32.div (F32.mul v0.fov.angleUp (F32.ofNat 180000)) XM_PI)))) ∧
        r.world.registry.lookup "angle_down" = some (toDword (P.toInt
            (F32.abs (F32.div (F32.mul v0.fov.angleDown (F32.ofNat 180000)) XM_PI))))) ∧
      r.layer.m_cachedEyeFov = (getFovAnglesSettings s r.world).m_cachedEyeFov ∧
      (v0.fov.angleUp = F32.ofDecimal 3927 10000 → v0.fov.angleDown = F32.ofDecimal 3491 10000 →
        ∃ d : Nat, r.world.regWrites = w.regWrites ++ [("angle_up", 22500), ("angle_down", d)] ∧
          d = 20001 ∧ 20000 - 2 ≤ d ∧ d ≤ 20000 + 2) := by
  obtain ⟨views2, hrun, _, _, _⟩ :=
    xrLocateViews_open P s w viewConfigurationType viewCapacityInput fwd hok (by omega) hty hcount
  rw [hv, afterLocate_capture P s _ v0 rest _ hl h1] at hrun
  refine ⟨_, hrun, rfl, ?_, ?_, rfl, ?_⟩
  · simp [captureAngles, setSetting, RegSetDword, World.forward, systemAngle]
  · intro hw
    simp [captureAngles, setSetting, RegSetDword, World.forward, systemAngle, hw, List.lookup]
  · intro hup hdown
    refine ⟨20001, ?_, rfl, by norm_num, by norm_num⟩
    have e1 := systemAngle_3927 P
    have e2 := systemAngle_3491 P
    simp only [captureAngles, setSetting, RegSetDword, World.forward, hup, hdown, e1, e2,
      List.append_assoc, List.singleton_append]
    rfl

theorem xrLocateViews_captures_eye0_witness :
    ∃ r, xrLocateViews samplePlatform (sampleLayer F32.one F32.one false) sampleWorld
        XR_VIEW_CONFIGURATION_TYPE_PRIMARY_STEREO 2
        (sampleLocate (F32.ofDecimal 3927 10000) (F32.ofDecimal 3491 10000)) = .ok r ∧
      r.layer.anglesWrittenToReg = true ∧
      r.world.regWrites = [("angle_up", 22500), ("angle_down", 20001)] := by
  obtain ⟨r, hr, hlatch, _, _, _, h⟩ := xrLocateViews_captures_eye0 samplePlatform
    (sampleLayer F32.one F32.one false) sampleWorld XR_VIEW_CONFIGURATION_TYPE_PRIMARY_STEREO 2
    (sampleLocate (F32.ofDecimal 3927 10000) (F32.ofDecimal 3491 10000))
    (sampleView (F32.ofDecimal 3927 10000) (F32.ofDecimal 3491 10000))
    [sampleView (F32.ofDecimal 3927 10000) (F32.ofDecimal 3491 10000)]
    rfl (by decide) (by decide) rfl (by decide) (by decide) rfl
  obtain ⟨d, hd, hd1, _⟩ := h rfl rfl
  subst hd1
  exact ⟨r, hr, hlatch, hd⟩

/-- C10: on a layer whose latch is true, every `xrLocateViews` call that returns (it does
whenever the reported count is within the array, whatever the angles and the number of
views) leaves the whole layer, so the cached baseline of both eyes and the latch, as it
was, makes no registry write and leaves the registry unchanged. -/
theorem xrLocateViews_latched (P : Platform) (s : OpenXrLayer) (w : World)
    (viewConfigurationType viewCapacityInput : Nat) (fwd : LocateOut)
    (hl : s.anglesWrittenToReg = true) :
    (fwd.viewCountOutput ≤ fwd.views.length →
      ∃ r, xrLocateViews P s w viewConfigurationType viewCapacityInput fwd = .ok r) ∧
    ∀ r, xrLocateViews P s w viewConfigurationType viewCapacityInput fwd = .ok r →
      r.layer = s ∧ r.layer.m_cachedEyeFov = s.m_cachedEyeFov ∧
      r.layer.anglesWrittenToReg = true ∧
      r.world.regWrites = w.regWrites ∧ r.world.registry = w.registry := by
  constructor
  · intro hcount
    exact xrLocateViews_returns P s w viewConfigurationType viewCapacityInput fwd hcount
  · intro r hr
    unfold xrLocateViews at hr
    simp only [] at hr
    split at hr
    · split at hr
      · rename_i s2 w2 views heq
        have := locateLoop_latched_state P _ _ s _ _ _ hl heq
        simp only at this
        obtain ⟨e1, e2⟩ := this
        cases hr
        subst e1 e2
        exact ⟨rfl, rfl, hl, rfl, rfl⟩
      · cases hr
    · cases hr
      exact ⟨rfl, rfl, hl, rfl, rfl⟩

theorem xrLocateViews_latched_witness :
    (∃ r, xrLocateViews samplePlatform (sampleLayer F32.one F32.one true) sampleWorld
        XR_VIEW_CONFIGURATION_TYPE_PRIMARY_STEREO 2
        (sampleLocate (F32.ofDecimal 3927 10000) (F32.ofDecimal 3491 10000)) = .ok r) ∧
    ∀ r, xrLocateViews samplePlatform (sampleLayer F32.one F32.one true) sampleWorld
        XR_VIEW_CONFIGURATION_TYPE_PRIMARY_STEREO 2
        (sampleLocate (F32.ofDecimal 3927 10000) (F32.ofDecimal 3491 10000)) = .ok r →
      r.layer.m_cachedEyeFov = (sampleLayer F32.one F32.one true).m_cachedEyeFov ∧
      r.world.regWrites = [] :=
  have h := xrLocateViews_latched samplePlatform (sampleLayer F32.one F32.one true) sampleWorld
    XR_VIEW_CONFIGURATION_TYPE_PRIMARY_STEREO 2
    (sampleLocate (F32.ofDecimal 3927 10000) (F32.ofDecimal 3491 10000)) rfl
  ⟨h.1 (by decide), fun r hr => ⟨(h.2 r hr).2.1, (h.2 r hr).2.2.2.1⟩⟩

/-! ## Loading the configuration -/

theorem valueOrDefaultFovAngle_none : valueOrDefaultFovAngle none = 45000 := by decide

theorem default_baseline :
    F32.div (F32.mul XM_PI (F32.ofInt 45000)) (F32.ofNat 180000) = piOver4 := by decide

theorem piOver4_eq_quarter : piOver4 = F32.div XM_PI (F32.ofNat 4) := by decide

theorem piOver4_toRat : piOver4.toRat = 13176795 / 16777216 := by
  simp only [piOver4, F32.toRat, F32.unitExp]
  norm_num

/-- The float `piOver4` is `π / 4` up to `10^-6`. -/
theorem piOver4_near_pi :
    |((piOver4.toRat : ℚ) : ℝ) - Real.pi / 4| < 1 / 10 ^ 6 := by
  rw [piOver4_toRat]
  have h1 := Real.pi_gt_d6
  have h2 := Real.pi_lt_d6
  rw [abs_lt]
  constructor <;> push_cast <;> norm_num at h1 h2 ⊢ <;> linarith

theorem getSetting_forward (w : World) (c : ApiCall) (name : String) :
    getSetting (w.forward c) name = getSetting w name := rfl

theorem ofDword_of_lt (u : Nat) (h : u < 2 ^ 31) : ofDword u = (u : Int) := by
  have h1 : u % 2 ^ 32 = u := Nat.mod_eq_of_lt (by omega)
  unfold ofDword
  rw [h1, if_pos h]

/-- The function `getSetting` reads the registry: the stored `DWORD` as `int`, or
nothing when the value is absent. -/
theorem getSetting_eq_lookup (w : World) (name : String) :
    getSetting w name = (w.registry.lookup name).map ofDword := by
  unfold getSetting RegGetDword
  cases w.registry.lookup name <;> rfl

/-- C11: `xrCreateInstance` with a valid descriptor, the bypass off and a successful
instance properties query returns with `fovUp = float(u) / 1000.0f` and
`fovDown = float(d) / 1000.0f`, where `u`, `d` are the `DWORD` values stored in the
registry under `fov_up`, `fov_down`, read as `int` (the stored number itself below
`2^31`), or 1000 when absent, and with the cached `angleUp` (resp. `angleDown`) of both
eyes equal to `XM_PI * float(a) / 180000.0f`, where `a` is the value stored under
`angle_up` (resp. `angle_down`) or 45000 when absent. With all four values missing both
scales are `1.0f` and both baseline angles of both eyes are the float `XM_PI / 4`, which
is `π / 4` up to `10^-6`. -/
theorem xrCreateInstance_loads_configuration (s : OpenXrLayer) (w : World)
    (fwdResult propertiesResult : XrResult)
    (hb : s.m_bypassApiLayer = false) (hp : XR_SUCCEEDED propertiesResult = true) :
    ∃ r, xrCreateInstance s w XR_TYPE_INSTANCE_CREATE_INFO fwdResult propertiesResult = .ok r ∧
      r.layer.fovUp =
        F32.div (F32.ofInt (((w.registry.lookup "fov_up").map ofDword).getD 1000))
          (F32.ofNat 1000) ∧
      r.layer.fovDown =
        F32.div (F32.ofInt (((w.registry.lookup "fov_down").map ofDword).getD 1000))
          (F32.ofNat 1000) ∧
      r.layer.m_cachedEyeFov.1.angleUp =
        F32.div (F32.mul XM_PI (F32.ofInt (((w.registry.lookup "angle_up").map ofDword).getD 45000)))
          (F32.ofNat 180000) ∧
      r.layer.m_cachedEyeFov.2.angleUp = r.layer.m_cachedEyeFov.1.angleUp ∧
      r.layer.m_cachedEyeFov.1.angleDown =
        F32.div
          (F32.mul XM_PI (F32.ofInt (((w.registry.lookup "angle_down").map ofDword).getD 45000)))
          (F32.ofNat 180000) ∧
      r.layer.m_cachedEyeFov.2.angleDown = r.layer.m_cachedEyeFov.1.angleDown ∧
      (∀ u : Nat, u < 2 ^ 31 → ofDword u = (u : Int)) ∧
      (∀ u : Nat, w.registry.lookup "fov_up" = some u → u < 2 ^ 31 →
        r.layer.fovUp = F32.div (F32.ofInt (u : Int)) (F32.ofNat 1000)) ∧
      (∀ d : Nat, w.registry.lookup "fov_down" = some d → d < 2 ^ 31 →
        r.layer.fovDown = F32.div (F32.ofInt (d : Int)) (F32.ofNat 1000)) ∧
      (∀ a : Nat, w.registry.lookup "angle_up" = some a → a < 2 ^ 31 →
        r.layer.m_cachedEyeFov.1.angleUp =
            F32.div (F32.mul XM_PI (F32.ofInt (a : Int))) (F32.ofNat 180000) ∧
        r.layer.m_cachedEyeFov.2.angleUp =
            F32.div (F32.mul XM_PI (F32.ofInt (a : Int))) (F32.ofNat 180000)) ∧
      (∀ a : Nat, w.registry.lookup "angle_down" = some a → a < 2 ^ 31 →
        r.layer.m_cachedEyeFov.1.angleDown =
            F32.div (F32.mul XM_PI (F32.ofInt (a : Int))) (F32.ofNat 180000) ∧
        r.layer.m_cachedEyeFov.2.angleDown =
            F32.div (F32.mul XM_PI (F32.ofInt (a : Int))) (F32.ofNat 180000)) ∧
      (w.registry.lookup "fov_up" = none → w.registry.lookup "fov_down" = none →
        w.registry.lookup "angle_up" = none → w.registry.lookup "angle_down" = none →
        r.layer.fovUp = F32.one ∧ r.layer.fovDown = F32.one ∧
        r.layer.m_cachedEyeFov.1.angleUp = piOver4 ∧
        r.layer.m_cachedEyeFov.1.angleDown = piOver4 ∧
        r.layer.m_cachedEyeFov.2.angleUp = piOver4 ∧
        r.layer.m_cachedEyeFov.2.angleDown = piOver4 ∧
        piOver4 = F32.div XM_PI (F32.ofNat 4) ∧
        |((piOver4.toRat : ℚ) : ℝ) - Real.pi / 4| < 1 / 10 ^ 6) := by
  have hf : XR_FAILED propertiesResult = false := by
    rw [XR_FAILED_eq_not_succeeded, hp]; rfl
  have hv : ∀ o : Option Int, valueOrDefaultFovAngle o = o.getD 45000 := by
    intro o
    cases o with
    | none => exact valueOrDefaultFovAngle_none
    | some v => rfl
  have e : xrCreateInstance s w XR_TYPE_INSTANCE_CREATE_INFO fwdResult propertiesResult =
      .ok ⟨XR_SUCCESS,
        { getFovAnglesSettings s w with
          fovUp := fovScale (getSetting w "fov_up")
          fovDown := fovScale (getSetting w "fov_down") },
        (w.forward .xrCreateInstance).forward .xrGetInstanceProperties⟩ := by
    unfold xrCreateInstance
    simp only [bne_self_eq_false, Bool.false_eq_true, if_false, hb, CHECK_XRCMD, hf]
    rfl
  have k1 : fovScale (getSetting w "fov_up") =
      F32.div (F32.ofInt (((w.registry.lookup "fov_up").map ofDword).getD 1000))
        (F32.ofNat 1000) := by
    rw [getSetting_eq_lookup]; rfl
  have k2 : fovScale (getSetting w "fov_down") =
      F32.div (F32.ofInt (((w.registry.lookup "fov_down").map ofDword).getD 1000))
        (F32.ofNat 1000) := by
    rw [getSetting_eq_lookup]; rfl
  have k3 : (getFovAnglesSettings s w).m_cachedEyeFov.1.angleUp =
      F32.div (F32.mul XM_PI
        (F32.ofInt (((w.registry.lookup "angle_up").map ofDword).getD 45000)))
        (F32.ofNat 180000) := by
    simp only [getFovAnglesSettings, hv, getSetting_eq_lookup]
  have k4 : (getFovAnglesSettings s w).m_cachedEyeFov.1.angleDown =
      F32.div (F32.mul XM_PI
        (F32.ofInt (((w.registry.lookup "angle_down").map ofDword).getD 45000)))
        (F32.ofNat 180000) := by
    simp only [getFovAnglesSettings, hv, getSetting_eq_lookup]
  refine ⟨_, e, k1, k2, k3, rfl, k4, rfl, ofDword_of_lt, ?_, ?_, ?_, ?_, ?_⟩
  · intro u hu hlt
    show fovScale (getSetting w "fov_up") = _
    rw [k1, hu]
    simp only [Option.map_some', Option.getD_some, ofDword_of_lt u hlt]
  · intro d hd hlt
    show fovScale (getSetting w "fov_down") = _
    rw [k2, hd]
    simp only [Option.map_some', Option.getD_some, ofDword_of_lt d hlt]
  · intro a ha hlt
    have : (getFovAnglesSettings s w).m_cachedEyeFov.1.angleUp =
        F32.div (F32.mul XM_PI (F32.ofInt (a : Int))) (F32.ofNat 180000) := by
      rw [k3, ha]
      simp only [Option.map_some', Option.getD_some, ofDword_of_lt a hlt]
    exact ⟨this, this⟩
  · intro a ha hlt
    have : (getFovAnglesSettings s w).m_cachedEyeFov.1.angleDown =
        F32.div (F32.mul XM_PI (F32.ofInt (a : Int))) (F32.ofNat 180000) := by
      rw [k4, ha]
      simp only [Option.map_some', Option.getD_some, ofDword_of_lt a hlt]
    exact ⟨this, this⟩
  · intro h1 h2 h3 h4
    have a1 : (getFovAnglesSettings s w).m_cachedEyeFov.1.angleUp = piOver4 := by
      rw [k3, h3]; exact default_baseline
    have a2 : (getFovAnglesSettings s w).m_cachedEyeFov.1.angleDown = piOver4 := by
      rw [k4, h4]; exact default_baseline
    refine ⟨?_, ?_, a1, a2, a1, a2, piOver4_eq_quarter, piOver4_near_pi⟩
    · show fovScale (getSetting w "fov_up") = _
      rw [k1, h1]; exact fovScale_none
    · show fovScale (getSetting w "fov_down") = _
      rw [k2, h2]; exact fovScale_none

theorem xrCreateInstance_loads_configuration_witness :
    ∃ r, xrCreateInstance OpenXrLayer.new configuredWorld XR_TYPE_INSTANCE_CREATE_INFO
        XR_SUCCESS XR_SUCCESS = .ok r ∧
      r.layer.fovUp = F32.div (F32.ofInt 1200) (F32.ofNat 1000) ∧
      r.layer.fovUp = F32.ofDecimal 12 10 ∧
      r.layer.fovDown = F32.ofDecimal 8 10 ∧
      r.layer.m_cachedEyeFov.1.angleUp =
        F32.div (F32.mul XM_PI (F32.ofInt 22500)) (F32.ofNat 180000) ∧
      r.layer.m_cachedEyeFov.2.angleDown =
        F32.div (F32.mul XM_PI (F32.ofInt 20001)) (F32.ofNat 180000) ∧
      r.layer.m_cachedEyeFov.1.angleUp ≠ piOver4 ∧ r.layer.fovUp ≠ F32.one := by
  obtain ⟨r, hr, _, _, _, _, _, _, _, hu, hd, hau, had, _⟩ :=
    xrCreateInstance_loads_configuration OpenXrLayer.new configuredWorld XR_SUCCESS XR_SUCCESS
      rfl (by decide)
  have e1 := hu 1200 (by decide) (by norm_num)
  have e2 := hd 800 (by decide) (by norm_num)
  have e3 := (hau 22500 (by decide) (by norm_num)).1
  have e4 := (had 20001 (by decide) (by norm_num)).2
  refine ⟨r, hr, e1, ?_, ?_, e3, e4, ?_, ?_⟩
  · rw [e1]; decide
  · rw [e2]; decide
  · rw [e3]; decide
  · rw [e1]; decide

/-! ## A baseline angle of zero -/

theorem F32.add_nan (x : F32) : F32.add x F32.nan = F32.nan := by
  cases x <;> rfl

theorem F32.nan_add (x : F32) : F32.add F32.nan x = F32.nan := by
  cases x <;> rfl

theorem F32.roundMag_zero (neg : Bool) (d : Nat) (hd : 0 < d) :
    F32.roundMag neg 0 d = F32.fin neg 0 := by
  have h := F32.roundMag_exact neg 0 d hd (Nat.zero_mod _) (by norm_num [F32.overflowBound])
  simpa using h

/-- A zero times a finite float is a zero. -/
theorem F32.zero_mul_finite (a f : F32) (ha : a.isZero = true) (hf : f.isFinite = true) :
    (F32.mul a f).isZero = true := by
  cases a with
  | nan => cases ha
  | inf s => cases ha
  | fin sa k =>
    cases k with
    | succ k => cases ha
    | zero =>
      cases f with
      | nan => cases hf
      | inf s => cases hf
      | fin sf l =>
        simp only [F32.mul, Nat.zero_mul]
        rw [F32.roundMag_zero _ _ (by positivity)]
        rfl

/-- With a tangent that maps zeros to zeros, the ratio `tan(a * f) / tan(a)` of a zero
baseline angle `a` and a finite scale `f` is `0 / 0`, a NaN. -/
theorem zero_baseline_ratio (P : Platform) (a f : F32)
    (htan : ∀ x : F32, x.isZero = true → (P.tan x).isZero = true)
    (ha : a.isZero = true) (hf : f.isFinite = true) :
    F32.div (P.tan (F32.mul a f)) (P.tan a) = F32.nan := by
  have h1 := htan _ (F32.zero_mul_finite a f ha hf)
  have h2 := htan _ ha
  generalize P.tan (F32.mul a f) = x at h1
  generalize P.tan a = y at h2
  cases x with
  | nan => cases h1
  | inf s => cases h1
  | fin sx k =>
    cases k with
    | succ k => cases h1
    | zero =>
      cases y with
      | nan => cases h2
      | inf s => cases h2
      | fin sy l =>
        cases l with
        | succ l => cases h2
        | zero => simp [F32.div]

/-- The height assigned when a baseline angle of the eye is zero: the conversion of a
NaN. -/
theorem rectHeight_zero_baseline (P : Platform) (s : OpenXrLayer) (fov : XrFovf) (height : Nat)
    (htan : ∀ x : F32, x.isZero = true → (P.tan x).isZero = true)
    (h : (fov.angleUp.isZero = true ∧ s.fovUp.isFinite = true) ∨
      (fov.angleDown.isZero = true ∧ s.fovDown.isFinite = true)) :
    rectHeight P s fov height = P.cvtUInt F32.nan % 2 ^ 32 := by
  unfold rectHeight
  rcases h with ⟨ha, hf⟩ | ⟨ha, hf⟩
  · rw [zero_baseline_ratio P _ _ htan ha hf, F32.mul_nan, F32.nan_add]
    rfl
  · rw [zero_baseline_ratio P _ _ htan ha hf, F32.mul_nan, F32.add_nan]
    rfl

theorem samplePlatform_tan_zero :
    ∀ x : F32, x.isZero = true → (samplePlatform.tan x).isZero = true := by
  intro x hx
  cases x with
  | nan => cases hx
  | inf s => cases hx
  | fin s k =>
    cases k with
    | succ k => cases hx
    | zero => cases s <;> rfl

/-- C12, as stated, fails: on a layer whose cached baseline is zero, with scales `1.0f`
as well as freshly constructed, a successful primary-stereo call for the reported heights
2000 and 1000 returns, on the sample platform, the heights 0 and 0 (the conversion of a
NaN), and on no platform whose tangent maps `0` to `0` the uncorrected heights 2000 and
1000. -/
theorem zero_baseline_not_guarded :
    (∃ r, xrEnumerateViewConfigurationViews samplePlatform zeroBaselineLayer sampleWorld
        XR_VIEW_CONFIGURATION_TYPE_PRIMARY_STEREO 2 (sampleEnumerate 2000 1000) = .ok r ∧
      (r.out.views.map fun v => v.recommendedImageRectHeight) = [0, 0]) ∧
    (∃ r, xrEnumerateViewConfigurationViews samplePlatform OpenXrLayer.new sampleWorld
        XR_VIEW_CONFIGURATION_TYPE_PRIMARY_STEREO 2 (sampleEnumerate 2000 1000) = .ok r ∧
      (r.out.views.map fun v => v.recommendedImageRectHeight) = [0, 0]) ∧
    ¬ ∃ (P : Platform) (r : Ret EnumerateOut),
      (∀ x : F32, x.isZero = true → (P.tan x).isZero = true) ∧
      xrEnumerateViewConfigurationViews P zeroBaselineLayer sampleWorld
        XR_VIEW_CONFIGURATION_TYPE_PRIMARY_STEREO 2 (sampleEnumerate 2000 1000) = .ok r ∧
      (r.out.views.map fun v => v.recommendedImageRectHeight) = [2000, 1000] := by
  refine ⟨⟨_, rfl, by decide⟩, ⟨_, rfl, by decide⟩, ?_⟩
  rintro ⟨P, r, htan, hr, hh⟩
  obtain ⟨views2, hrun, hlen, _, hin⟩ :=
    xrEnumerateViewConfigurationViews_open P zeroBaselineLayer sampleWorld
      XR_VIEW_CONFIGURATION_TYPE_PRIMARY_STEREO 2 (sampleEnumerate 2000 1000) rfl (by decide) rfl
      (by decide) (by decide)
  rw [hrun] at hr
  have h0 := hin 0 (sampleConfigView 2000) zeroFov (by decide) rfl rfl
  have h1 := hin 1 (sampleConfigView 1000) zeroFov (by decide) rfl rfl
  rw [rectHeight_zero_baseline P zeroBaselineLayer zeroFov _ htan (Or.inl ⟨rfl, rfl⟩)] at h0 h1
  have hviews : r.out.views = views2 := by
    cases hr; rfl
  rw [hviews] at hh
  match views2, hlen, h0, h1, hh with
  | [a, b], _, h0, h1, hh =>
    simp only [List.getElem?_cons_zero, Option.some.injEq] at h0
    simp only [List.getElem?_cons_succ, List.getElem?_cons_zero, Option.some.injEq] at h1
    subst h0 h1
    simp only [List.map_cons, List.map_nil, sampleConfigView, List.cons.injEq, and_true] at hh
    omega

/-- C12, amended: the rectangle-height rewrite has no guard for a zero baseline. On a
platform whose tangent maps zeros to zeros, when a cached baseline angle (`angleUp` or
`angleDown`) of an eye is exactly zero and the scale of that half is finite, the ratio of
that half is `0 / 0`, a NaN, and the height a successful primary-stereo
`xrEnumerateViewConfigurationViews` with `viewCapacityInput >= 1` delivers for that eye is
the conversion of a NaN to `uint32_t`, which C++ leaves undefined. The zero-initialised
cache of a freshly constructed layer is such a case. -/
theorem xrEnumerateViewConfigurationViews_zero_baseline (P : Platform) (s : OpenXrLayer)
    (w : World) (viewConfigurationType viewCapacityInput : Nat) (fwd : EnumerateOut)
    (hok : XR_SUCCEEDED fwd.result = true) (hcap : 1 ≤ viewCapacityInput)
    (hty : viewConfigurationType = XR_VIEW_CONFIGURATION_TYPE_PRIMARY_STEREO)
    (hcount : fwd.viewCountOutput ≤ fwd.views.length) (h2 : fwd.viewCountOutput ≤ 2)
    (htan : ∀ x : F32, x.isZero = true → (P.tan x).isZero = true) :
    ∃ r, xrEnumerateViewConfigurationViews P s w viewConfigurationType viewCapacityInput fwd =
        .ok r ∧
      (∀ i v fov, i < fwd.viewCountOutput → fwd.views[i]? = some v →
        s.cachedEyeFov? i = some fov →
        (fov.angleUp.isZero = true ∧ s.fovUp.isFinite = true →
          F32.div (P.tan (F32.mul fov.angleUp s.fovUp)) (P.tan fov.angleUp) = F32.nan) ∧
        (fov.angleDown.isZero = true ∧ s.fovDown.isFinite = true →
          F32.div (P.tan (F32.mul fov.angleDown s.fovDown)) (P.tan fov.angleDown) = F32.nan) ∧
        ((fov.angleUp.isZero = true ∧ s.fovUp.isFinite = true) ∨
            (fov.angleDown.isZero = true ∧ s.fovDown.isFinite = true) →
          ∃ v2, r.out.views[i]? = some v2 ∧
            v2.recommendedImageRectHeight = P.cvtUInt F32.nan % 2 ^ 32)) ∧
      (OpenXrLayer.new.m_cachedEyeFov.1.angleUp.isZero = true ∧
        OpenXrLayer.new.m_cachedEyeFov.2.angleUp.isZero = true ∧
        OpenXrLayer.new.fovUp.isFinite = true) := by
  obtain ⟨views2, hrun, _, _, hin⟩ :=
    xrEnumerateViewConfigurationViews_open P s w viewConfigurationType viewCapacityInput fwd hok
      (by omega) hty hcount h2
  refine ⟨_, hrun, ?_, rfl, rfl, rfl⟩
  intro i v fov hi hv hfov
  refine ⟨fun h => zero_baseline_ratio P _ _ htan h.1 h.2,
    fun h => zero_baseline_ratio P _ _ htan h.1 h.2, ?_⟩
  intro h
  refine ⟨_, hin i v fov hi hv hfov, ?_⟩
  exact rectHeight_zero_baseline P s fov _ htan h

theorem xrEnumerateViewConfigurationViews_zero_baseline_witness :
    ∃ r v2, xrEnumerateViewConfigurationViews samplePlatform OpenXrLayer.new sampleWorld
        XR_VIEW_CONFIGURATION_TYPE_PRIMARY_STEREO 2 (sampleEnumerate 2000 1000) = .ok r ∧
      r.out.views[0]? = some v2 ∧
      v2.recommendedImageRectHeight = samplePlatform.cvtUInt F32.nan % 2 ^ 32 := by
  obtain ⟨r, hr, h, _⟩ := xrEnumerateViewConfigurationViews_zero_baseline samplePlatform
    OpenXrLayer.new sampleWorld XR_VIEW_CONFIGURATION_TYPE_PRIMARY_STEREO 2
    (sampleEnumerate 2000 1000) (by decide) (by decide) rfl (by decide) (by decide)
    samplePlatform_tan_zero
  obtain ⟨v2, hv2, hh⟩ := (h 0 (sampleConfigView 2000) zeroFov (by decide) rfl rfl).2.2
    (Or.inl ⟨rfl, rfl⟩)
  exact ⟨r, v2, hr, hv2, hh⟩

/-! ## What the post-processing leaves alone -/

theorem getFovAnglesSettings_symmetric (s : OpenXrLayer) (w : World) :
    (getFovAnglesSettings s w).symmetricBaseline := ⟨rfl, rfl⟩

theorem captureAngles_symmetric (P : Platform) (s : OpenXrLayer) (w : World) (v : XrView) :
    (captureAngles P s w v).1.symmetricBaseline := ⟨rfl, rfl⟩

/-- The loop of `xrLocateViews` keeps the baseline symmetric. -/
theorem locateLoop_symmetric (P : Platform) (n : Nat) :
    ∀ (i : Nat) (s : OpenXrLayer) (w : World) (views : List XrView)
      (out : OpenXrLayer × World × List XrView),
      s.symmetricBaseline → locateLoop P n i s w views = .ok out →
      out.1.symmetricBaseline := by
  induction n with
  | zero =>
    intro i s w views out hs h
    simp only [locateLoop, Except.ok.injEq] at h
    subst h; exact hs
  | succ n ih =>
    intro i s w views out hs h
    unfold locateLoop at h
    split at h
    · rename_i v hv
      refine ih _ _ _ _ out ?_ h
      cases hl : s.anglesWrittenToReg with
      | true => simpa using hs
      | false => simpa using captureAngles_symmetric P s w v
    · cases h

/-- Every intercepted call keeps the baseline symmetric. -/
theorem step_symmetric (P : Platform) (s : OpenXrLayer) (w : World) (c : Call)
    (s2 : OpenXrLayer) (w2 : World) (hs : s.symmetricBaseline)
    (h : step P s w c = some (s2, w2)) : s2.symmetricBaseline := by
  have key : ∀ {α : Type} (x : Except Fault (Ret α)),
      (∀ r, x = .ok r → r.layer.symmetricBaseline) →
      afterCall s w x = some (s2, w2) → s2.symmetricBaseline := by
    intro α x hx hstep
    cases x with
    | ok r =>
      simp only [afterCall, Option.some.injEq, Prod.mk.injEq] at hstep
      rw [← hstep.1]; exact hx r rfl
    | error e =>
      cases e with
      | outOfBounds => simp [afterCall] at hstep
      | xrCheckFailed code =>
        simp only [afterCall, Option.some.injEq, Prod.mk.injEq] at hstep
        rw [← hstep.1]; exact hs
  cases c with
  | createInstance createInfoType fwdResult propertiesResult =>
    refine key _ ?_ h
    intro r hr
    unfold xrCreateInstance at hr
    split at hr
    · cases hr; exact hs
    · simp only [] at hr
      split at hr
      · cases hr; exact hs
      · split at hr
        · cases hr
        · cases hr; exact getFovAnglesSettings_symmetric _ _
  | getSystem getInfoType formFactor fwd propertiesResult =>
    refine key _ ?_ h
    intro r hr
    unfold xrGetSystem at hr
    split at hr
    · cases hr; exact hs
    · simp only [] at hr
      split at hr
      · split at hr
        · split at hr
          · cases hr
          · cases hr; exact hs
        · cases hr; exact hs
      · cases hr; exact hs
  | createSession createInfoType systemId fwdResult =>
    refine key _ ?_ h
    intro r hr
    unfold xrCreateSession at hr
    split at hr
    · cases hr; exact hs
    · simp only [] at hr
      split at hr
      · split at hr <;> (cases hr; exact hs)
      · cases hr; exact hs
  | enumerateViewConfigurationViews viewConfigurationType viewCapacityInput fwd =>
    refine key _ ?_ h
    intro r hr
    unfold xrEnumerateViewConfigurationViews at hr
    simp only [] at hr
    split at hr
    · split at hr
      · split at hr
        · cases hr; exact hs
        · cases hr
      · cases hr; exact hs
    · cases hr; exact hs
  | locateViews viewConfigurationType viewCapacityInput fwd =>
    refine key _ ?_ h
    intro r hr
    unfold xrLocateViews at hr
    simp only [] at hr
    split at hr
    · split at hr
      · rename_i s3 w3 views heq
        cases hr
        exact locateLoop_symmetric P _ _ s _ _ _ hs heq
      · cases hr
    · cases hr; exact hs

/-- C14: in every layer reachable from construction by intercepted calls
(`xrCreateInstance`, `xrGetSystem`, `xrCreateSession`,
`xrEnumerateViewConfigurationViews`, `xrLocateViews`, with any arguments, any answers of
the forwarded calls and any registry), the cached baseline of eye 0 and of eye 1 have the
same `angleUp` and the same `angleDown`. -/
theorem reachable_symmetric_baseline (P : Platform) (s : OpenXrLayer) (h : Reachable P s) :
    s.m_cachedEyeFov.1.angleUp = s.m_cachedEyeFov.2.angleUp ∧
    s.m_cachedEyeFov.1.angleDown = s.m_cachedEyeFov.2.angleDown := by
  induction h with
  | construction => exact ⟨rfl, rfl⟩
  | call s w c s2 w2 _ hstep ih => exact step_symmetric P s w c s2 w2 ih hstep

theorem reachable_symmetric_baseline_witness :
    ∃ s, Reachable samplePlatform s ∧ s.anglesWrittenToReg = true ∧
      s.m_cachedEyeFov.1.angleUp = s.m_cachedEyeFov.2.angleUp ∧
      s.m_cachedEyeFov.1.angleDown = s.m_cachedEyeFov.2.angleDown := by
  have h1 : Reachable samplePlatform (sampleLayer F32.one F32.one false) :=
    Reachable.call OpenXrLayer.new sampleWorld
      (.createInstance XR_TYPE_INSTANCE_CREATE_INFO XR_SUCCESS XR_SUCCESS) _
      ((sampleWorld.forward .xrCreateInstance).forward .xrGetInstanceProperties)
      Reachable.construction (by decide)
  have h2 : Reachable samplePlatform
      (captureAngles samplePlatform (sampleLayer F32.one F32.one false)
        (sampleWorld.forward .xrLocateViews)
        (sampleView (F32.ofDecimal 3927 10000) (F32.ofDecimal 3491 10000))).1 :=
    Reachable.call (sampleLayer F32.one F32.one false) sampleWorld
      (.locateViews XR_VIEW_CONFIGURATION_TYPE_PRIMARY_STEREO 2
        { sampleLocate (F32.ofDecimal 3927 10000) (F32.ofDecimal 3491 10000) with
          views := [sampleView (F32.ofDecimal 3927 10000) (F32.ofDecimal 3491 10000),
            sampleView piOver4 piOver4] }) _ _ h1 rfl
  exact ⟨_, h2, rfl, reachable_symmetric_baseline samplePlatform _ h2⟩

/-! ## The capture does not see the scale factors -/

/-- C15: two capturing `xrLocateViews` calls (latch false, forwarded call succeeded,
`viewCapacityInput >= 1`, primary stereo, at least one view) that start from the same
registry and the same layer except for `fovUp` and `fovDown`, and receive the same output
of the runtime, both return, leave the same world (the same registry content and the same
registry writes) and the same cached baseline. The values written are computed from the
angles the runtime reported for view 0, not from the rescaled angles the call returns. -/
theorem capture_independent_of_scale (P : Platform) (s : OpenXrLayer) (w : World)
    (viewConfigurationType viewCapacityInput : Nat) (fwd : LocateOut) (v0 : XrView)
    (rest : List XrView) (fovUp2 fovDown2 : F32)
    (hl : s.anglesWrittenToReg = false)
    (hok : XR_SUCCEEDED fwd.result = true) (hcap : 1 ≤ viewCapacityInput)
    (hty : viewConfigurationType = XR_VIEW_CONFIGURATION_TYPE_PRIMARY_STEREO)
    (hcount : fwd.viewCountOutput ≤ fwd.views.length) (h1 : 1 ≤ fwd.viewCountOutput)
    (hv : fwd.views = v0 :: rest) :
    ∃ r1 r2,
      xrLocateViews P s w viewConfigurationType viewCapacityInput fwd = .ok r1 ∧
      xrLocateViews P { s with fovUp := fovUp2, fovDown := fovDown2 } w viewConfigurationType
        viewCapacityInput fwd = .ok r2 ∧
      r1.world = r2.world ∧
      r1.world.regWrites = r2.world.regWrites ∧ r1.world.registry = r2.world.registry ∧
      r1.layer.m_cachedEyeFov = r2.layer.m_cachedEyeFov ∧
      r1.layer.anglesWrittenToReg = true ∧ r2.layer.anglesWrittenToReg = true ∧
      r1.world.regWrites = w.regWrites ++
        [("angle_up", toDword (P.toInt
            (F32.abs (F32.div (F32.mul v0.fov.angleUp (F32.ofNat 180000)) XM_PI)))),
         ("angle_down", toDword (P.toInt
            (F32.abs (F32.div (F32.mul v0.fov.angleDown (F32.ofNat 180000)) XM_PI))))] ∧
      r1.layer.m_cachedEyeFov = (getFovAnglesSettings s r1.world).m_cachedEyeFov := by
  obtain ⟨views1, hrun1, _⟩ :=
    xrLocateViews_open P s w viewConfigurationType viewCapacityInput fwd hok (by omega) hty hcount
  obtain ⟨views2, hrun2, _⟩ :=
    xrLocateViews_open P { s with fovUp := fovUp2, fovDown := fovDown2 } w viewConfigurationType
      viewCapacityInput fwd hok (by omega) hty hcount
  rw [hv, afterLocate_capture P s _ v0 rest _ hl h1] at hrun1
  rw [hv, afterLocate_capture P { s with fovUp := fovUp2, fovDown := fovDown2 } _ v0 rest _
    hl h1] at hrun2
  refine ⟨_, _, hrun1, hrun2, rfl, rfl, rfl, rfl, rfl, rfl, ?_, rfl⟩
  simp [captureAngles, setSetting, RegSetDword, World.forward, systemAngle]

theorem capture_independent_of_scale_witness :
    ∃ r1 r2,
      xrLocateViews samplePlatform (sampleLayer F32.one F32.one false) sampleWorld
        XR_VIEW_CONFIGURATION_TYPE_PRIMARY_STEREO 2
        (sampleLocate (F32.ofDecimal 3927 10000) (F32.ofDecimal 3491 10000)) = .ok r1 ∧
      xrLocateViews samplePlatform
        { sampleLayer F32.one F32.one false with
          fovUp := fovScale (some 1200), fovDown := fovScale (some 800) } sampleWorld
        XR_VIEW_CONFIGURATION_TYPE_PRIMARY_STEREO 2
        (sampleLocate (F32.ofDecimal 3927 10000) (F32.ofDecimal 3491 10000)) = .ok r2 ∧
      r1.world = r2.world ∧ r1.layer.m_cachedEyeFov = r2.layer.m_cachedEyeFov := by
  obtain ⟨r1, r2, h1, h2, hw, _, _, hc, _⟩ := capture_independent_of_scale samplePlatform
    (sampleLayer F32.one F32.one false) sampleWorld XR_VIEW_CONFIGURATION_TYPE_PRIMARY_STEREO 2
    (sampleLocate (F32.ofDecimal 3927 10000) (F32.ofDecimal 3491 10000))
    (sampleView (F32.ofDecimal 3927 10000) (F32.ofDecimal 3491 10000))
    [sampleView (F32.ofDecimal 3927 10000) (F32.ofDecimal 3491 10000)]
    (fovScale (some 1200)) (fovScale (some 800))
    rfl (by decide) (by decide) rfl (by decide) (by decide) rfl
  exact ⟨r1, r2, h1, h2, hw, hc⟩

end CustomizedFOV
